import Mathlib

/-!
# khan: `gpu_featurizer/ani_op.cpp`

Shallow embedding of the three TensorFlow operator kernels
`AniCombined`, `AniCombinedGrad`, `AniCombinedGradInverse`, of the three
`REGISTER_OP` blocks and of the `REGISTER_KERNEL_BUILDER` lines.

* `int` is modelled by `Int` with explicit reduction modulo 2^32 into the range
  of `int` (`wrapInt`); `long long` and `int64` are modelled by `Int`.
* `OpKernelContext` is an explicit state: the inputs, the behaviour of the
  framework allocator, the outputs allocated so far, the status and the
  chronological list of observable events (allocation requests, functor call).
  `Compute` maps the context it is handed to the context it leaves.
* `TOTAL_FEATURE_SIZE` is declared in `parameters.h`; it is a parameter of the
  kernels and of the operator declarations here, taken to be an `int`
  constant, so that `acs[k]*TOTAL_FEATURE_SIZE` is a product of two `int`s.
* The numerical functors `AniFunctor`, `AniGrad`, `AniGradInverse` are declared
  in `functor_op.h`; a call is recorded as an event that holds the functor
  name, its template arguments and the argument list in call order.
* The framework answers `allocate_output` through `OpKernelContext.allocator`,
  an arbitrary function of the output name and the requested shape; the
  constructor `TensorShape({n})` checks nothing here.
* The local `start` (a clock reading) is never used in the source and is left
  out, as is `total_num_atoms` where it is unused.
-/

namespace Khan

/-! ## Machine integers -/

/-- Smallest value of the C++ type `int`. -/
def INT_MIN : Int := -2147483648

/-- Largest value of the C++ type `int`. -/
def INT_MAX : Int := 2147483647

/-- Membership in the range of `int`. -/
def isInt (x : Int) : Prop := INT_MIN ≤ x ∧ x ≤ INT_MAX

instance (x : Int) : Decidable (isInt x) := by
  unfold isInt; infer_instance

/-- Reduction of a mathematical integer modulo 2^32 into the range of `int`. -/
def wrapInt (x : Int) : Int := (x + 2147483648) % 4294967296 - 2147483648

/-- The product `a * b` of two `int` operands, as an `int`. -/
def int_mul (a b : Int) : Int := wrapInt (a * b)

/-! ## Framework data -/

/-- Eigen device types: `CPUDevice = Eigen::ThreadPoolDevice`,
`GPUDevice = Eigen::GpuDevice`. -/
inductive EigenDevice where
  | CPUDevice
  | GPUDevice
deriving DecidableEq, Repr

/-- The C++ types used as `NumericType`. -/
inductive CppType where
  | float
  | double
deriving DecidableEq, Repr

/-- A `TensorShape`: the list of dimension sizes (`int64` each). -/
structure TensorShape where
  dims : List Int
deriving DecidableEq, Repr

/-- `TensorShape::num_elements()`. -/
def TensorShape.num_elements (s : TensorShape) : Int := s.dims.prod

/-- A `Tensor`: its shape, the address of its buffer (what
`flat<T>().data()` returns) and the `int` words a host read through that
address finds. -/
structure Tensor where
  shape : TensorShape
  data : Nat
  host : List Int
deriving DecidableEq, Repr

instance : Inhabited Tensor := ⟨⟨⟨[]⟩, 0, []⟩⟩

/-- The host read `p[k]` through `p = t.flat<int>().data()`; a read past the
words of the buffer, which C++ leaves undefined, gives 0. -/
def Tensor.at (t : Tensor) (k : Nat) : Int := t.host.getD k 0

/-- A non-OK `Status`. -/
structure Status where
  code : Nat
  error_message : String
deriving DecidableEq, Repr

/-- One argument of a functor call. -/
inductive Arg where
  | eigen_device (d : EigenDevice)
  | ptr (addr : Nat)
  | value (v : Int)
deriving DecidableEq, Repr

/-- What a `Compute` does that is visible from outside, in order. -/
inductive Event where
  | allocate_output (name : String) (shape : TensorShape)
  | functor (name : String) (Device : EigenDevice) (NumericType : CppType) (args : List Arg)
deriving DecidableEq, Repr

/-- The `OpKernelContext` of one call. `allocator name shape` is the answer of
the framework to `allocate_output(name, shape, &t)`: a failure status or the
address of the new buffer. `status = none` is `Status::OK()`. -/
structure OpKernelContext where
  inputs : List Tensor
  allocator : String → TensorShape → Except Status Nat
  outputs : List (String × Tensor)
  status : Option Status
  events : List Event

/-- The context handed to `Compute`: nothing allocated, status OK. -/
def OpKernelContext.fresh (inputs : List Tensor)
    (allocator : String → TensorShape → Except Status Nat) : OpKernelContext :=
  ⟨inputs, allocator, [], none, []⟩

/-- `context->input(i)`. -/
def OpKernelContext.input (context : OpKernelContext) (i : Nat) : Tensor :=
  context.inputs.getD i default

/-- `context->allocate_output(name, shape, &t)`: the request is made, and on
success the new tensor of the requested shape becomes an output. -/
def OpKernelContext.allocate_output (context : OpKernelContext) (name : String)
    (shape : TensorShape) : Except Status Tensor × OpKernelContext :=
  let context := { context with events := context.events ++ [Event.allocate_output name shape] }
  match context.allocator name shape with
  | .error s => (.error s, context)
  | .ok addr =>
    let t : Tensor := ⟨shape, addr, []⟩
    (.ok t, { context with outputs := context.outputs ++ [(name, t)] })

/-- The failure branch of `OP_REQUIRES_OK`: `CtxFailureWithWarning(s)`, which
keeps an earlier failure if there is one (`Status::Update`). -/
def OpKernelContext.CtxFailureWithWarning (context : OpKernelContext) (s : Status) :
    OpKernelContext :=
  match context.status with
  | none => { context with status := some s }
  | some _ => context

/-- The call of a numerical functor. -/
def OpKernelContext.call (context : OpKernelContext) (name : String) (Device : EigenDevice)
    (NumericType : CppType) (args : List Arg) : OpKernelContext :=
  { context with events := context.events ++ [Event.functor name Device NumericType args] }

/-! ## The three kernels -/

/-- `AniCombined<Device, NumericType>::Compute` (lines 29-92). -/
def AniCombined.Compute (TOTAL_FEATURE_SIZE : Int) (Device : EigenDevice)
    (NumericType : CppType) (context : OpKernelContext) : OpKernelContext :=
  let input_Xs := context.input 0
  let input_Ys := context.input 1
  let input_Zs := context.input 2
  let input_As := context.input 3
  let input_MOs := context.input 4
  let input_MACs := context.input 5
  let input_SIs := context.input 6
  let input_ACs := context.input 7
  let n_mols := input_MOs.shape.num_elements
  let acs := input_ACs
  match context.allocate_output "h_feat" ⟨[int_mul (acs.at 0) TOTAL_FEATURE_SIZE]⟩ with
  | (.error s, context) => context.CtxFailureWithWarning s
  | (.ok X_feat_H, context) =>
  match context.allocate_output "c_feat" ⟨[int_mul (acs.at 1) TOTAL_FEATURE_SIZE]⟩ with
  | (.error s, context) => context.CtxFailureWithWarning s
  | (.ok X_feat_C, context) =>
  match context.allocate_output "n_feat" ⟨[int_mul (acs.at 2) TOTAL_FEATURE_SIZE]⟩ with
  | (.error s, context) => context.CtxFailureWithWarning s
  | (.ok X_feat_N, context) =>
  match context.allocate_output "o_feat" ⟨[int_mul (acs.at 3) TOTAL_FEATURE_SIZE]⟩ with
  | (.error s, context) => context.CtxFailureWithWarning s
  | (.ok X_feat_O, context) =>
  context.call "AniFunctor" Device NumericType
    [ .eigen_device Device,
      .ptr input_Xs.data,
      .ptr input_Ys.data,
      .ptr input_Zs.data,
      .ptr input_As.data,
      .ptr input_MOs.data,
      .ptr input_MACs.data,
      .value n_mols,
      .ptr input_SIs.data,
      .ptr X_feat_H.data,
      .ptr X_feat_C.data,
      .ptr X_feat_N.data,
      .ptr X_feat_O.data,
      .ptr acs.data ]

/-- `AniCombinedGrad<Device, NumericType>::Compute` (lines 129-196). -/
def AniCombinedGrad.Compute (Device : EigenDevice) (NumericType : CppType)
    (context : OpKernelContext) : OpKernelContext :=
  let input_Xs := context.input 0
  let input_Ys := context.input 1
  let input_Zs := context.input 2
  let input_As := context.input 3
  let input_MOs := context.input 4
  let input_MACs := context.input 5
  let input_SIs := context.input 6
  let input_ACs := context.input 7
  let input_H_grads := context.input 8
  let input_C_grads := context.input 9
  let input_N_grads := context.input 10
  let input_O_grads := context.input 11
  let total_num_atoms := input_Xs.shape.num_elements
  let n_mols := input_MOs.shape.num_elements
  let acs := input_ACs
  match context.allocate_output "x_grads" ⟨[total_num_atoms]⟩ with
  | (.error s, context) => context.CtxFailureWithWarning s
  | (.ok X_grads, context) =>
  match context.allocate_output "y_grads" ⟨[total_num_atoms]⟩ with
  | (.error s, context) => context.CtxFailureWithWarning s
  | (.ok Y_grads, context) =>
  match context.allocate_output "z_grads" ⟨[total_num_atoms]⟩ with
  | (.error s, context) => context.CtxFailureWithWarning s
  | (.ok Z_grads, context) =>
  context.call "AniGrad" Device NumericType
    [ .eigen_device Device,
      .ptr input_Xs.data,
      .ptr input_Ys.data,
      .ptr input_Zs.data,
      .ptr input_As.data,
      .ptr input_MOs.data,
      .ptr input_MACs.data,
      .value n_mols,
      .ptr input_SIs.data,
      .ptr input_H_grads.data,
      .ptr input_C_grads.data,
      .ptr input_N_grads.data,
      .ptr input_O_grads.data,
      .ptr X_grads.data,
      .ptr Y_grads.data,
      .ptr Z_grads.data,
      .ptr acs.data ]

/-- `AniCombinedGradInverse<Device, NumericType>::Compute` (lines 232-305). -/
def AniCombinedGradInverse.Compute (TOTAL_FEATURE_SIZE : Int) (Device : EigenDevice)
    (NumericType : CppType) (context : OpKernelContext) : OpKernelContext :=
  let input_Xs := context.input 0
  let input_Ys := context.input 1
  let input_Zs := context.input 2
  let input_As := context.input 3
  let input_MOs := context.input 4
  let input_MACs := context.input 5
  let input_SIs := context.input 6
  let input_ACs := context.input 7
  let input_X_grads := context.input 8
  let input_Y_grads := context.input 9
  let input_Z_grads := context.input 10
  let n_mols := input_MOs.shape.num_elements
  let acs := input_ACs
  match context.allocate_output "h_grads" ⟨[int_mul (acs.at 0) TOTAL_FEATURE_SIZE]⟩ with
  | (.error s, context) => context.CtxFailureWithWarning s
  | (.ok output_H_grads, context) =>
  match context.allocate_output "c_grads" ⟨[int_mul (acs.at 1) TOTAL_FEATURE_SIZE]⟩ with
  | (.error s, context) => context.CtxFailureWithWarning s
  | (.ok output_C_grads, context) =>
  match context.allocate_output "n_grads" ⟨[int_mul (acs.at 2) TOTAL_FEATURE_SIZE]⟩ with
  | (.error s, context) => context.CtxFailureWithWarning s
  | (.ok output_N_grads, context) =>
  match context.allocate_output "o_grads" ⟨[int_mul (acs.at 3) TOTAL_FEATURE_SIZE]⟩ with
  | (.error s, context) => context.CtxFailureWithWarning s
  | (.ok output_O_grads, context) =>
  context.call "AniGradInverse" Device NumericType
    [ .eigen_device Device,
      .ptr input_Xs.data,
      .ptr input_Ys.data,
      .ptr input_Zs.data,
      .ptr input_As.data,
      .ptr input_MOs.data,
      .ptr input_MACs.data,
      .value n_mols,
      .ptr input_SIs.data,
      .ptr input_X_grads.data,
      .ptr input_Y_grads.data,
      .ptr input_Z_grads.data,
      .ptr output_H_grads.data,
      .ptr output_C_grads.data,
      .ptr output_N_grads.data,
      .ptr output_O_grads.data,
      .ptr acs.data ]

/-! ## Operator and kernel registrations -/

/-- TensorFlow element types named in the registrations, under the names the
`REGISTER_OP` strings use (`DT_FLOAT`, `DT_DOUBLE`, `DT_INT32`). -/
inductive DataType where
  | float32
  | float64
  | int32
deriving DecidableEq, Repr

/-- `DataTypeToEnum<T>::value`, as used by `TypeConstraint<T>`. -/
def DataTypeToEnum : CppType → DataType
  | .float => .float32
  | .double => .float64

/-- The type part of an `Input`/`Output` spec `"name: type"`: a fixed element
type (`int32`) or the name of a type attribute (`FT`). -/
inductive TypeSpec where
  | fixed (t : DataType)
  | attr (name : String)
deriving DecidableEq, Repr

/-- An `Input("name: type")` or `Output("name: type")` entry. -/
structure ArgDef where
  name : String
  type : TypeSpec
deriving DecidableEq, Repr

/-- An `Attr(...)` entry: `"name: int = default"` or `"name: {t1, t2}"`. -/
inductive AttrDef where
  | int (name : String) (default_value : Int)
  | type (name : String) (allowed : List DataType)
deriving DecidableEq, Repr

/-- Whether an attribute is a type attribute. -/
def AttrDef.is_type : AttrDef → Bool
  | .type _ _ => true
  | .int _ _ => false

/-- What a `REGISTER_OP` block declares, entries in source order. -/
structure OpDef where
  name : String
  inputs : List ArgDef
  outputs : List ArgDef
  attrs : List AttrDef
deriving DecidableEq, Repr

/-- `REGISTER_OP("Featurize")` (lines 95-117). -/
def REGISTER_OP_Featurize (TOTAL_FEATURE_SIZE : Int) : OpDef :=
  { name := "Featurize"
    inputs :=
      [ ⟨"xs", .attr "FT"⟩,
        ⟨"ys", .attr "FT"⟩,
        ⟨"zs", .attr "FT"⟩,
        ⟨"as", .fixed .int32⟩,
        ⟨"mos", .fixed .int32⟩,
        ⟨"macs", .fixed .int32⟩,
        ⟨"sis", .fixed .int32⟩,
        ⟨"acs", .fixed .int32⟩ ]
    outputs :=
      [ ⟨"h_feat", .attr "FT"⟩,
        ⟨"c_feat", .attr "FT"⟩,
        ⟨"n_feat", .attr "FT"⟩,
        ⟨"o_feat", .attr "FT"⟩ ]
    attrs :=
      [ .int "feature_size" TOTAL_FEATURE_SIZE,
        .type "FT" [.float32, .float64] ] }

/-- `REGISTER_OP("FeaturizeGrad")` (lines 200-221). -/
def REGISTER_OP_FeaturizeGrad (TOTAL_FEATURE_SIZE : Int) : OpDef :=
  { name := "FeaturizeGrad"
    inputs :=
      [ ⟨"xs", .attr "FT"⟩,
        ⟨"ys", .attr "FT"⟩,
        ⟨"zs", .attr "FT"⟩,
        ⟨"as", .fixed .int32⟩,
        ⟨"mos", .fixed .int32⟩,
        ⟨"macs", .fixed .int32⟩,
        ⟨"sis", .fixed .int32⟩,
        ⟨"acs", .fixed .int32⟩,
        ⟨"h_grads", .attr "FT"⟩,
        ⟨"c_grads", .attr "FT"⟩,
        ⟨"n_grads", .attr "FT"⟩,
        ⟨"o_grads", .attr "FT"⟩ ]
    outputs :=
      [ ⟨"x_grads", .attr "FT"⟩,
        ⟨"y_grads", .attr "FT"⟩,
        ⟨"z_grads", .attr "FT"⟩ ]
    attrs :=
      [ .int "feature_size" TOTAL_FEATURE_SIZE,
        .type "FT" [.float32, .float64] ] }

/-- `REGISTER_OP("FeaturizeGradInverse")` (lines 309-330). -/
def REGISTER_OP_FeaturizeGradInverse (TOTAL_FEATURE_SIZE : Int) : OpDef :=
  { name := "FeaturizeGradInverse"
    inputs :=
      [ ⟨"xs", .attr "FT"⟩,
        ⟨"ys", .attr "FT"⟩,
        ⟨"zs", .attr "FT"⟩,
        ⟨"as", .fixed .int32⟩,
        ⟨"mos", .fixed .int32⟩,
        ⟨"macs", .fixed .int32⟩,
        ⟨"sis", .fixed .int32⟩,
        ⟨"acs", .fixed .int32⟩,
        ⟨"x_grads", .attr "FT"⟩,
        ⟨"y_grads", .attr "FT"⟩,
        ⟨"z_grads", .attr "FT"⟩ ]
    outputs :=
      [ ⟨"h_grads", .attr "FT"⟩,
        ⟨"c_grads", .attr "FT"⟩,
        ⟨"n_grads", .attr "FT"⟩,
        ⟨"o_grads", .attr "FT"⟩ ]
    attrs :=
      [ .type "FT" [.float32, .float64],
        .int "feature_size" TOTAL_FEATURE_SIZE ] }

/-- The three operators, in source order. -/
def registered_ops (TOTAL_FEATURE_SIZE : Int) : List OpDef :=
  [ REGISTER_OP_Featurize TOTAL_FEATURE_SIZE,
    REGISTER_OP_FeaturizeGrad TOTAL_FEATURE_SIZE,
    REGISTER_OP_FeaturizeGradInverse TOTAL_FEATURE_SIZE ]

/-- Framework device names `DEVICE_CPU`, `DEVICE_GPU`. -/
inductive DeviceName where
  | DEVICE_CPU
  | DEVICE_GPU
deriving DecidableEq, Repr

/-- One `REGISTER_KERNEL_BUILDER(Name(op).HostMemory(arg).Device(dev)
.TypeConstraint<T>(attr), Kernel<D, N>)` line. -/
structure KernelDef where
  op : String
  host_memory : List String
  device : DeviceName
  constraint_attr : String
  constraint_type : DataType
  kernel_class : String
  kernel_Device : EigenDevice
  kernel_NumericType : CppType
deriving DecidableEq, Repr

/-- The `REGISTER_KERNEL_BUILDER` lines 332-343; `ANI_GPU` says whether the
preprocessor symbol of that name is defined. Line 334 is commented out in the
source. -/
def REGISTER_KERNEL_BUILDER (ANI_GPU : Bool) : List KernelDef :=
  (if ANI_GPU then
    [ ⟨"Featurize", ["acs"], .DEVICE_GPU, "FT", DataTypeToEnum .float,
        "AniCombined", .GPUDevice, .float⟩ ]
  else []) ++
  [ ⟨"Featurize", ["acs"], .DEVICE_CPU, "FT", DataTypeToEnum .double,
      "AniCombined", .CPUDevice, .double⟩,
    ⟨"Featurize", ["acs"], .DEVICE_CPU, "FT", DataTypeToEnum .float,
      "AniCombined", .CPUDevice, .float⟩,
    ⟨"FeaturizeGrad", ["acs"], .DEVICE_CPU, "FT", DataTypeToEnum .double,
      "AniCombinedGrad", .CPUDevice, .double⟩,
    ⟨"FeaturizeGrad", ["acs"], .DEVICE_CPU, "FT", DataTypeToEnum .float,
      "AniCombinedGrad", .CPUDevice, .float⟩,
    ⟨"FeaturizeGradInverse", ["acs"], .DEVICE_CPU, "FT", DataTypeToEnum .double,
      "AniCombinedGradInverse", .CPUDevice, .double⟩,
    ⟨"FeaturizeGradInverse", ["acs"], .DEVICE_CPU, "FT", DataTypeToEnum .float,
      "AniCombinedGradInverse", .CPUDevice, .float⟩ ]

/-- Whether a kernel of operator `op` is registered for `device` with the type
attribute `FT` constrained to the element type of `t`. -/
def kernel_registered (ANI_GPU : Bool) (op : String) (device : DeviceName) (t : CppType) :
    Prop :=
  ∃ k ∈ REGISTER_KERNEL_BUILDER ANI_GPU,
    k.op = op ∧ k.device = device ∧ k.constraint_attr = "FT" ∧
    k.constraint_type = DataTypeToEnum t

instance (ANI_GPU : Bool) (op : String) (device : DeviceName) (t : CppType) :
    Decidable (kernel_registered ANI_GPU op device t) := by
  unfold kernel_registered; infer_instance

/-- Whether an event is a functor call. -/
def Event.is_functor : Event → Bool
  | .functor _ _ _ _ => true
  | .allocate_output _ _ => false

/-- The outputs `AniCombined::Compute` asks for, in statement order (lines
54-73): the reference its events are compared with. -/
def AniCombined.requests (TOTAL_FEATURE_SIZE : Int) (context : OpKernelContext) :
    List (String × TensorShape) :=
  [ ("h_feat", ⟨[int_mul ((context.input 7).at 0) TOTAL_FEATURE_SIZE]⟩),
    ("c_feat", ⟨[int_mul ((context.input 7).at 1) TOTAL_FEATURE_SIZE]⟩),
    ("n_feat", ⟨[int_mul ((context.input 7).at 2) TOTAL_FEATURE_SIZE]⟩),
    ("o_feat", ⟨[int_mul ((context.input 7).at 3) TOTAL_FEATURE_SIZE]⟩) ]

/-- The outputs `AniCombinedGrad::Compute` asks for, in statement order (lines
158-174). -/
def AniCombinedGrad.requests (context : OpKernelContext) : List (String × TensorShape) :=
  [ ("x_grads", ⟨[(context.input 0).shape.num_elements]⟩),
    ("y_grads", ⟨[(context.input 0).shape.num_elements]⟩),
    ("z_grads", ⟨[(context.input 0).shape.num_elements]⟩) ]

/-- The outputs `AniCombinedGradInverse::Compute` asks for, in statement order
(lines 262-284). -/
def AniCombinedGradInverse.requests (TOTAL_FEATURE_SIZE : Int) (context : OpKernelContext) :
    List (String × TensorShape) :=
  [ ("h_grads", ⟨[int_mul ((context.input 7).at 0) TOTAL_FEATURE_SIZE]⟩),
    ("c_grads", ⟨[int_mul ((context.input 7).at 1) TOTAL_FEATURE_SIZE]⟩),
    ("n_grads", ⟨[int_mul ((context.input 7).at 2) TOTAL_FEATURE_SIZE]⟩),
    ("o_grads", ⟨[int_mul ((context.input 7).at 3) TOTAL_FEATURE_SIZE]⟩) ]

/-- The events of a run that made the first `n` of the allocation requests
`requests`, in order, and nothing else. -/
def request_events (requests : List (String × TensorShape)) (n : Nat) : List Event :=
  (requests.take n).map fun r => Event.allocate_output r.1 r.2

/-- The fail-fast behaviour of one `Compute`, where `requests` are the outputs
it allocates, in order, and `result` is the context it leaves.
* If request `i` is the first one the allocator refuses, with status `s`, the
  status of `result` is `s`, exactly the requests `0..i` have been made,
  exactly the outputs `0..i-1` exist and no event is a functor call.
* The functor is called if and only if the allocator grants every request. -/
def fails_fast (allocator : String → TensorShape → Except Status Nat)
    (requests : List (String × TensorShape)) (result : OpKernelContext) : Prop :=
  (∀ (i : Nat) (name : String) (shape : TensorShape) (s : Status),
    requests.get? i = some (name, shape) →
    (∀ r ∈ requests.take i, ∃ addr, allocator r.1 r.2 = .ok addr) →
    allocator name shape = .error s →
      result.status = some s ∧
      result.events = request_events requests (i + 1) ∧
      result.outputs.map Prod.fst = (requests.take i).map Prod.fst ∧
      ∀ e ∈ result.events, e.is_functor = false) ∧
  ((∃ e ∈ result.events, e.is_functor = true) ↔
    ∀ r ∈ requests, ∃ addr, allocator r.1 r.2 = .ok addr)

/-- What a call leaves behind that can be observed: its events, its outputs
and its status. -/
def OpKernelContext.outcome (context : OpKernelContext) :
    List Event × List (String × Tensor) × Option Status :=
  (context.events, context.outputs, context.status)

/-- Two input lists hold, slot by slot, tensors of the same shape at the same
address; the words found in the buffers may differ. -/
def same_buffers (inputs1 inputs2 : List Tensor) : Prop :=
  ∀ i, (inputs2.getD i default).shape = (inputs1.getD i default).shape ∧
    (inputs2.getD i default).data = (inputs1.getD i default).data

/-- The meaning of `HostMemory(name)` for one input slot: the name the operator
declares for the slot is among the `HostMemory` names of the registration, so
the framework hands the kernel that input in host memory. -/
def KernelDef.input_in_host_memory (k : KernelDef) (op : OpDef) (slot : Nat) : Prop :=
  ∃ a, op.inputs.get? slot = some a ∧ a.name ∈ k.host_memory

/-- Every output size is requested before the functor is dispatched. Either
the allocator grants all of `requests` and the events are all these requests,
in order, followed by exactly one call of the functor `functor_name`; or the
allocator refuses request `i` and the events are the requests `0..i`, in
order, with no functor call. -/
def sized_before_dispatch (allocator : String → TensorShape → Except Status Nat)
    (requests : List (String × TensorShape)) (functor_name : String) (Device : EigenDevice)
    (NumericType : CppType) (events : List Event) : Prop :=
  ((∀ r ∈ requests, ∃ addr, allocator r.1 r.2 = .ok addr) ∧
    ∃ args, events = request_events requests requests.length ++
      [Event.functor functor_name Device NumericType args]) ∨
  (∃ i name shape e, requests.get? i = some (name, shape) ∧
    allocator name shape = .error e ∧ events = request_events requests (i + 1))

/-- The eight inputs every operator declares first, in declaration order. -/
def common_inputs : List ArgDef :=
  [ ⟨"xs", .attr "FT"⟩, ⟨"ys", .attr "FT"⟩, ⟨"zs", .attr "FT"⟩, ⟨"as", .fixed .int32⟩,
    ⟨"mos", .fixed .int32⟩, ⟨"macs", .fixed .int32⟩, ⟨"sis", .fixed .int32⟩,
    ⟨"acs", .fixed .int32⟩ ]

/-! ## Inputs used to instantiate the theorems

The scenario of the specification: two molecules `[H,H,O]` and `[H,C]`,
`mol_offsets = [0,3]`, `mol_atom_counts = [3,2]`. -/

/-- The eight common inputs of the scenario, with the given element counts;
buffer addresses are `100 + slot`. -/
def scenario_inputs (acs : List Int) : List Tensor :=
  [ ⟨⟨[5]⟩, 100, []⟩, ⟨⟨[5]⟩, 101, []⟩, ⟨⟨[5]⟩, 102, []⟩, ⟨⟨[5]⟩, 103, [0, 0, 3, 0, 1]⟩,
    ⟨⟨[2]⟩, 104, [0, 3]⟩, ⟨⟨[2]⟩, 105, [3, 2]⟩, ⟨⟨[5]⟩, 106, [0, 1, 0, 2, 0]⟩,
    ⟨⟨[4]⟩, 107, acs⟩ ]

/-- Incoming gradient buffers for slots 8.. of the two gradient operators. -/
def scenario_grads (dims : List Int) : List Tensor :=
  dims.enum.map fun p => ⟨⟨[p.2]⟩, 108 + p.1, []⟩

/-- An allocator that grants every request; the buffer address is 200 plus the
position of the output name in a fixed list. -/
def allocator_ok : String → TensorShape → Except Status Nat :=
  fun name _ =>
    .ok (200 + List.indexOf name
      ["h_feat", "c_feat", "n_feat", "o_feat", "x_grads", "y_grads", "z_grads",
       "h_grads", "c_grads", "n_grads", "o_grads"])

/-- An allocator that refuses the output called `bad` and grants the others. -/
def allocator_refusing (bad : String) : String → TensorShape → Except Status Nat :=
  fun name shape =>
    if name = bad then .error ⟨8, "OOM when allocating tensor"⟩ else allocator_ok name shape

/-! ## Normal forms of the three `Compute` methods -/

theorem AniCombined_Compute_cases (T : Int) (D : EigenDevice) (N : CppType)
    (inputs : List Tensor) (alloc : String → TensorShape → Except Status Nat)
    (sH sC sN sO : TensorShape)
    (hH : sH = ⟨[int_mul ((inputs.getD 7 default).at 0) T]⟩)
    (hC : sC = ⟨[int_mul ((inputs.getD 7 default).at 1) T]⟩)
    (hN : sN = ⟨[int_mul ((inputs.getD 7 default).at 2) T]⟩)
    (hO : sO = ⟨[int_mul ((inputs.getD 7 default).at 3) T]⟩) :
    (∃ e, alloc "h_feat" sH = .error e ∧
      AniCombined.Compute T D N (OpKernelContext.fresh inputs alloc) =
        ⟨inputs, alloc, [], some e, [.allocate_output "h_feat" sH]⟩) ∨
    (∃ pH e, alloc "h_feat" sH = .ok pH ∧ alloc "c_feat" sC = .error e ∧
      AniCombined.Compute T D N (OpKernelContext.fresh inputs alloc) =
        ⟨inputs, alloc, [("h_feat", ⟨sH, pH, []⟩)], some e,
          [.allocate_output "h_feat" sH, .allocate_output "c_feat" sC]⟩) ∨
    (∃ pH pC e, alloc "h_feat" sH = .ok pH ∧ alloc "c_feat" sC = .ok pC ∧
      alloc "n_feat" sN = .error e ∧
      AniCombined.Compute T D N (OpKernelContext.fresh inputs alloc) =
        ⟨inputs, alloc, [("h_feat", ⟨sH, pH, []⟩), ("c_feat", ⟨sC, pC, []⟩)], some e,
          [.allocate_output "h_feat" sH, .allocate_output "c_feat" sC,
           .allocate_output "n_feat" sN]⟩) ∨
    (∃ pH pC pN e, alloc "h_feat" sH = .ok pH ∧ alloc "c_feat" sC = .ok pC ∧
      alloc "n_feat" sN = .ok pN ∧ alloc "o_feat" sO = .error e ∧
      AniCombined.Compute T D N (OpKernelContext.fresh inputs alloc) =
        ⟨inputs, alloc,
          [("h_feat", ⟨sH, pH, []⟩), ("c_feat", ⟨sC, pC, []⟩), ("n_feat", ⟨sN, pN, []⟩)], some e,
          [.allocate_output "h_feat" sH, .allocate_output "c_feat" sC,
           .allocate_output "n_feat" sN, .allocate_output "o_feat" sO]⟩) ∨
    (∃ pH pC pN pO, alloc "h_feat" sH = .ok pH ∧ alloc "c_feat" sC = .ok pC ∧
      alloc "n_feat" sN = .ok pN ∧ alloc "o_feat" sO = .ok pO ∧
      AniCombined.Compute T D N (OpKernelContext.fresh inputs alloc) =
        ⟨inputs, alloc,
          [("h_feat", ⟨sH, pH, []⟩), ("c_feat", ⟨sC, pC, []⟩), ("n_feat", ⟨sN, pN, []⟩),
           ("o_feat", ⟨sO, pO, []⟩)], none,
          [.allocate_output "h_feat" sH, .allocate_output "c_feat" sC,
           .allocate_output "n_feat" sN, .allocate_output "o_feat" sO,
           .functor "AniFunctor" D N
             [ .eigen_device D, .ptr (inputs.getD 0 default).data,
               .ptr (inputs.getD 1 default).data, .ptr (inputs.getD 2 default).data,
               .ptr (inputs.getD 3 default).data, .ptr (inputs.getD 4 default).data,
               .ptr (inputs.getD 5 default).data,
               .value (inputs.getD 4 default).shape.num_elements,
               .ptr (inputs.getD 6 default).data,
               .ptr pH, .ptr pC, .ptr pN, .ptr pO,
               .ptr (inputs.getD 7 default).data ]]⟩) := by
  subst hH hC hN hO
  unfold AniCombined.Compute
  simp only [OpKernelContext.allocate_output, OpKernelContext.fresh, OpKernelContext.input,
    OpKernelContext.CtxFailureWithWarning, OpKernelContext.call]
  cases h0 : alloc "h_feat" ⟨[int_mul ((inputs.getD 7 default).at 0) T]⟩ with
  | error e => exact Or.inl ⟨e, rfl, rfl⟩
  | ok pH =>
  dsimp only
  cases h1 : alloc "c_feat" ⟨[int_mul ((inputs.getD 7 default).at 1) T]⟩ with
  | error e => exact Or.inr (Or.inl ⟨pH, e, rfl, rfl, rfl⟩)
  | ok pC =>
  dsimp only
  cases h2 : alloc "n_feat" ⟨[int_mul ((inputs.getD 7 default).at 2) T]⟩ with
  | error e => exact Or.inr (Or.inr (Or.inl ⟨pH, pC, e, rfl, rfl, rfl, rfl⟩))
  | ok pN =>
  dsimp only
  cases h3 : alloc "o_feat" ⟨[int_mul ((inputs.getD 7 default).at 3) T]⟩ with
  | error e => exact Or.inr (Or.inr (Or.inr (Or.inl ⟨pH, pC, pN, e, rfl, rfl, rfl, rfl, rfl⟩)))
  | ok pO => exact Or.inr (Or.inr (Or.inr (Or.inr ⟨pH, pC, pN, pO, rfl, rfl, rfl, rfl, rfl⟩)))

theorem AniCombinedGrad_Compute_cases (D : EigenDevice) (N : CppType)
    (inputs : List Tensor) (alloc : String → TensorShape → Except Status Nat)
    (sA : TensorShape) (hA : sA = ⟨[(inputs.getD 0 default).shape.num_elements]⟩) :
    (∃ e, alloc "x_grads" sA = .error e ∧
      AniCombinedGrad.Compute D N (OpKernelContext.fresh inputs alloc) =
        ⟨inputs, alloc, [], some e, [.allocate_output "x_grads" sA]⟩) ∨
    (∃ pX e, alloc "x_grads" sA = .ok pX ∧ alloc "y_grads" sA = .error e ∧
      AniCombinedGrad.Compute D N (OpKernelContext.fresh inputs alloc) =
        ⟨inputs, alloc, [("x_grads", ⟨sA, pX, []⟩)], some e,
          [.allocate_output "x_grads" sA, .allocate_output "y_grads" sA]⟩) ∨
    (∃ pX pY e, alloc "x_grads" sA = .ok pX ∧ alloc "y_grads" sA = .ok pY ∧
      alloc "z_grads" sA = .error e ∧
      AniCombinedGrad.Compute D N (OpKernelContext.fresh inputs alloc) =
        ⟨inputs, alloc, [("x_grads", ⟨sA, pX, []⟩), ("y_grads", ⟨sA, pY, []⟩)], some e,
          [.allocate_output "x_grads" sA, .allocate_output "y_grads" sA,
           .allocate_output "z_grads" sA]⟩) ∨
    (∃ pX pY pZ, alloc "x_grads" sA = .ok pX ∧ alloc "y_grads" sA = .ok pY ∧
      alloc "z_grads" sA = .ok pZ ∧
      AniCombinedGrad.Compute D N (OpKernelContext.fresh inputs alloc) =
        ⟨inputs, alloc,
          [("x_grads", ⟨sA, pX, []⟩), ("y_grads", ⟨sA, pY, []⟩), ("z_grads", ⟨sA, pZ, []⟩)], none,
          [.allocate_output "x_grads" sA, .allocate_output "y_grads" sA,
           .allocate_output "z_grads" sA,
           .functor "AniGrad" D N
             [ .eigen_device D, .ptr (inputs.getD 0 default).data,
               .ptr (inputs.getD 1 default).data, .ptr (inputs.getD 2 default).data,
               .ptr (inputs.getD 3 default).data, .ptr (inputs.getD 4 default).data,
               .ptr (inputs.getD 5 default).data,
               .value (inputs.getD 4 default).shape.num_elements,
               .ptr (inputs.getD 6 default).data,
               .ptr (inputs.getD 8 default).data, .ptr (inputs.getD 9 default).data,
               .ptr (inputs.getD 10 default).data, .ptr (inputs.getD 11 default).data,
               .ptr pX, .ptr pY, .ptr pZ,
               .ptr (inputs.getD 7 default).data ]]⟩) := by
  subst hA
  unfold AniCombinedGrad.Compute
  simp only [OpKernelContext.allocate_output, OpKernelContext.fresh, OpKernelContext.input,
    OpKernelContext.CtxFailureWithWarning, OpKernelContext.call]
  cases h0 : alloc "x_grads" ⟨[(inputs.getD 0 default).shape.num_elements]⟩ with
  | error e => exact Or.inl ⟨e, rfl, rfl⟩
  | ok pX =>
  dsimp only
  cases h1 : alloc "y_grads" ⟨[(inputs.getD 0 default).shape.num_elements]⟩ with
  | error e => exact Or.inr (Or.inl ⟨pX, e, rfl, rfl, rfl⟩)
  | ok pY =>
  dsimp only
  cases h2 : alloc "z_grads" ⟨[(inputs.getD 0 default).shape.num_elements]⟩ with
  | error e => exact Or.inr (Or.inr (Or.inl ⟨pX, pY, e, rfl, rfl, rfl, rfl⟩))
  | ok pZ => exact Or.inr (Or.inr (Or.inr ⟨pX, pY, pZ, rfl, rfl, rfl, rfl⟩))

theorem AniCombinedGradInverse_Compute_cases (T : Int) (D : EigenDevice) (N : CppType)
    (inputs : List Tensor) (alloc : String → TensorShape → Except Status Nat)
    (sH sC sN sO : TensorShape)
    (hH : sH = ⟨[int_mul ((inputs.getD 7 default).at 0) T]⟩)
    (hC : sC = ⟨[int_mul ((inputs.getD 7 default).at 1) T]⟩)
    (hN : sN = ⟨[int_mul ((inputs.getD 7 default).at 2) T]⟩)
    (hO : sO = ⟨[int_mul ((inputs.getD 7 default).at 3) T]⟩) :
    (∃ e, alloc "h_grads" sH = .error e ∧
      AniCombinedGradInverse.Compute T D N (OpKernelContext.fresh inputs alloc) =
        ⟨inputs, alloc, [], some e, [.allocate_output "h_grads" sH]⟩) ∨
    (∃ pH e, alloc "h_grads" sH = .ok pH ∧ alloc "c_grads" sC = .error e ∧
      AniCombinedGradInverse.Compute T D N (OpKernelContext.fresh inputs alloc) =
        ⟨inputs, alloc, [("h_grads", ⟨sH, pH, []⟩)], some e,
          [.allocate_output "h_grads" sH, .allocate_output "c_grads" sC]⟩) ∨
    (∃ pH pC e, alloc "h_grads" sH = .ok pH ∧ alloc "c_grads" sC = .ok pC ∧
      alloc "n_grads" sN = .error e ∧
      AniCombinedGradInverse.Compute T D N (OpKernelContext.fresh inputs alloc) =
        ⟨inputs, alloc, [("h_grads", ⟨sH, pH, []⟩), ("c_grads", ⟨sC, pC, []⟩)], some e,
          [.allocate_output "h_grads" sH, .allocate_output "c_grads" sC,
           .allocate_output "n_grads" sN]⟩) ∨
    (∃ pH pC pN e, alloc "h_grads" sH = .ok pH ∧ alloc "c_grads" sC = .ok pC ∧
      alloc "n_grads" sN = .ok pN ∧ alloc "o_grads" sO = .error e ∧
      AniCombinedGradInverse.Compute T D N (OpKernelContext.fresh inputs alloc) =
        ⟨inputs, alloc,
          [("h_grads", ⟨sH, pH, []⟩), ("c_grads", ⟨sC, pC, []⟩), ("n_grads", ⟨sN, pN, []⟩)],
          some e,
          [.allocate_output "h_grads" sH, .allocate_output "c_grads" sC,
           .allocate_output "n_grads" sN, .allocate_output "o_grads" sO]⟩) ∨
    (∃ pH pC pN pO, alloc "h_grads" sH = .ok pH ∧ alloc "c_grads" sC = .ok pC ∧
      alloc "n_grads" sN = .ok pN ∧ alloc "o_grads" sO = .ok pO ∧
      AniCombinedGradInverse.Compute T D N (OpKernelContext.fresh inputs alloc) =
        ⟨inputs, alloc,
          [("h_grads", ⟨sH, pH, []⟩), ("c_grads", ⟨sC, pC, []⟩), ("n_grads", ⟨sN, pN, []⟩),
           ("o_grads", ⟨sO, pO, []⟩)], none,
          [.allocate_output "h_grads" sH, .allocate_output "c_grads" sC,
           .allocate_output "n_grads" sN, .allocate_output "o_grads" sO,
           .functor "AniGradInverse" D N
             [ .eigen_device D, .ptr (inputs.getD 0 default).data,
               .ptr (inputs.getD 1 default).data, .ptr (inputs.getD 2 default).data,
               .ptr (inputs.getD 3 default).data, .ptr (inputs.getD 4 default).data,
               .ptr (inputs.getD 5 default).data,
               .value (inputs.getD 4 default).shape.num_elements,
               .ptr (inputs.getD 6 default).data,
               .ptr (inputs.getD 8 default).data, .ptr (inputs.getD 9 default).data,
               .ptr (inputs.getD 10 default).data,
               .ptr pH, .ptr pC, .ptr pN, .ptr pO,
               .ptr (inputs.getD 7 default).data ]]⟩) := by
  subst hH hC hN hO
  unfold AniCombinedGradInverse.Compute
  simp only [OpKernelContext.allocate_output, OpKernelContext.fresh, OpKernelContext.input,
    OpKernelContext.CtxFailureWithWarning, OpKernelContext.call]
  cases h0 : alloc "h_grads" ⟨[int_mul ((inputs.getD 7 default).at 0) T]⟩ with
  | error e => exact Or.inl ⟨e, rfl, rfl⟩
  | ok pH =>
  dsimp only
  cases h1 : alloc "c_grads" ⟨[int_mul ((inputs.getD 7 default).at 1) T]⟩ with
  | error e => exact Or.inr (Or.inl ⟨pH, e, rfl, rfl, rfl⟩)
  | ok pC =>
  dsimp only
  cases h2 : alloc "n_grads" ⟨[int_mul ((inputs.getD 7 default).at 2) T]⟩ with
  | error e => exact Or.inr (Or.inr (Or.inl ⟨pH, pC, e, rfl, rfl, rfl, rfl⟩))
  | ok pN =>
  dsimp only
  cases h3 : alloc "o_grads" ⟨[int_mul ((inputs.getD 7 default).at 3) T]⟩ with
  | error e => exact Or.inr (Or.inr (Or.inr (Or.inl ⟨pH, pC, pN, e, rfl, rfl, rfl, rfl, rfl⟩)))
  | ok pO => exact Or.inr (Or.inr (Or.inr (Or.inr ⟨pH, pC, pN, pO, rfl, rfl, rfl, rfl, rfl⟩)))

theorem Tensor.at_of_host {t : Tensor} {l : List Int} (h : t.host = l) (k : Nat) :
    t.at k = l.getD k 0 := by
  unfold Tensor.at
  rw [h]

/-! ## Arithmetic of `int` products -/

theorem wrapInt_of_isInt (x : Int) (h : isInt x) : wrapInt x = x := by
  unfold isInt INT_MIN INT_MAX at h
  unfold wrapInt
  omega

theorem wrapInt_isInt (x : Int) : isInt (wrapInt x) := by
  unfold isInt INT_MIN INT_MAX wrapInt
  omega

theorem wrapInt_congruent (x : Int) : (wrapInt x - x) % 4294967296 = 0 := by
  unfold wrapInt
  omega

theorem int_mul_exact_or_wrapped (c T : Int) (hT : 0 ≤ T) :
    (0 ≤ c → c * T ≤ INT_MAX → int_mul c T = c * T ∧ 0 ≤ int_mul c T) ∧
    (INT_MAX < c * T →
      isInt (int_mul c T) ∧ (int_mul c T - c * T) % 4294967296 = 0 ∧ int_mul c T ≠ c * T) := by
  refine ⟨?_, ?_⟩
  · intro hc hle
    have hnn : 0 ≤ c * T := mul_nonneg hc hT
    have hin : isInt (c * T) := by
      refine ⟨?_, hle⟩
      unfold INT_MIN
      omega
    have heq : int_mul c T = c * T := wrapInt_of_isInt _ hin
    exact ⟨heq, by rw [heq]; exact hnn⟩
  · intro hgt
    refine ⟨wrapInt_isInt _, wrapInt_congruent _, ?_⟩
    intro heq
    have hle : int_mul c T ≤ INT_MAX := (wrapInt_isInt (c * T)).2
    rw [heq] at hle
    exact absurd hgt (not_lt.mpr hle)

/-! ## Output sizes (C1, C2, C3) -/

/-- C1. For every element-count array `acs = [h, c, n, o]`, a `Featurize`
call that ends with status OK has allocated exactly the four outputs `h_feat`,
`c_feat`, `n_feat`, `o_feat`, in this order; output `k` has a single dimension
and `acs[k] * TOTAL_FEATURE_SIZE` entries, the product being the `int` product
of lines 56-71. The sizes are a function of `acs` and the constant only: two
successful calls with equal `acs` get equal output shapes whatever their other
inputs, device, numeric type and allocator are. When the constant is
non-negative and every count `x` has `0 ≤ x` and `x * TOTAL_FEATURE_SIZE ≤
INT_MAX`, the numbers of entries are the exact products. -/
theorem C1_Featurize_output_sizes (TOTAL_FEATURE_SIZE : Int) (Device : EigenDevice)
    (NumericType : CppType) (inputs : List Tensor)
    (allocator : String → TensorShape → Except Status Nat) (h c n o : Int)
    (hacs : ((OpKernelContext.fresh inputs allocator).input 7).host = [h, c, n, o])
    (hok : (AniCombined.Compute TOTAL_FEATURE_SIZE Device NumericType
      (OpKernelContext.fresh inputs allocator)).status = none) :
    (AniCombined.Compute TOTAL_FEATURE_SIZE Device NumericType
        (OpKernelContext.fresh inputs allocator)).outputs.map
        (fun out => (out.1, out.2.shape.dims, out.2.shape.num_elements)) =
      [ ("h_feat", [int_mul h TOTAL_FEATURE_SIZE], int_mul h TOTAL_FEATURE_SIZE),
        ("c_feat", [int_mul c TOTAL_FEATURE_SIZE], int_mul c TOTAL_FEATURE_SIZE),
        ("n_feat", [int_mul n TOTAL_FEATURE_SIZE], int_mul n TOTAL_FEATURE_SIZE),
        ("o_feat", [int_mul o TOTAL_FEATURE_SIZE], int_mul o TOTAL_FEATURE_SIZE) ] ∧
    (∀ (Device2 : EigenDevice) (NumericType2 : CppType) (inputs2 : List Tensor)
      (allocator2 : String → TensorShape → Except Status Nat),
      ((OpKernelContext.fresh inputs2 allocator2).input 7).host = [h, c, n, o] →
      (AniCombined.Compute TOTAL_FEATURE_SIZE Device2 NumericType2
        (OpKernelContext.fresh inputs2 allocator2)).status = none →
      (AniCombined.Compute TOTAL_FEATURE_SIZE Device2 NumericType2
        (OpKernelContext.fresh inputs2 allocator2)).outputs.map (fun out => (out.1, out.2.shape)) =
      (AniCombined.Compute TOTAL_FEATURE_SIZE Device NumericType
        (OpKernelContext.fresh inputs allocator)).outputs.map (fun out => (out.1, out.2.shape))) ∧
    (0 ≤ TOTAL_FEATURE_SIZE →
      (∀ x ∈ [h, c, n, o], 0 ≤ x ∧ x * TOTAL_FEATURE_SIZE ≤ INT_MAX) →
      (AniCombined.Compute TOTAL_FEATURE_SIZE Device NumericType
        (OpKernelContext.fresh inputs allocator)).outputs.map
        (fun out => out.2.shape.num_elements) =
      [ h * TOTAL_FEATURE_SIZE, c * TOTAL_FEATURE_SIZE, n * TOTAL_FEATURE_SIZE,
        o * TOTAL_FEATURE_SIZE ]) := by
  have key : ∀ (D : EigenDevice) (N : CppType) (ins : List Tensor)
      (al : String → TensorShape → Except Status Nat),
      ((OpKernelContext.fresh ins al).input 7).host = [h, c, n, o] →
      (AniCombined.Compute TOTAL_FEATURE_SIZE D N (OpKernelContext.fresh ins al)).status = none →
      (AniCombined.Compute TOTAL_FEATURE_SIZE D N (OpKernelContext.fresh ins al)).outputs.map
        (fun out => (out.1, out.2.shape)) =
      [ ("h_feat", ⟨[int_mul h TOTAL_FEATURE_SIZE]⟩), ("c_feat", ⟨[int_mul c TOTAL_FEATURE_SIZE]⟩),
        ("n_feat", ⟨[int_mul n TOTAL_FEATURE_SIZE]⟩),
        ("o_feat", ⟨[int_mul o TOTAL_FEATURE_SIZE]⟩) ] := by
    intro D N ins al ha hs
    have ha2 : (ins.getD 7 default).host = [h, c, n, o] := ha
    rcases AniCombined_Compute_cases TOTAL_FEATURE_SIZE D N ins al _ _ _ _ rfl rfl rfl rfl with
      ⟨e, _, hr⟩ | ⟨pH, e, _, _, hr⟩ | ⟨pH, pC, e, _, _, _, hr⟩ | ⟨pH, pC, pN, e, _, _, _, _, hr⟩ |
      ⟨pH, pC, pN, pO, _, _, _, _, hr⟩
    all_goals rw [hr] at hs ⊢
    · exact absurd hs (Option.some_ne_none e)
    · exact absurd hs (Option.some_ne_none e)
    · exact absurd hs (Option.some_ne_none e)
    · exact absurd hs (Option.some_ne_none e)
    · simp only [List.map, Tensor.at_of_host ha2 0, Tensor.at_of_host ha2 1,
        Tensor.at_of_host ha2 2, Tensor.at_of_host ha2 3]
      rfl
  refine ⟨?_, ?_, ?_⟩
  · have hk := key Device NumericType inputs allocator hacs hok
    have := congrArg (List.map (fun q : String × TensorShape => (q.1, q.2.dims, q.2.num_elements))) hk
    simpa [TensorShape.num_elements, List.map_map, Function.comp] using this
  · intro D2 N2 ins2 al2 ha2 hs2
    rw [key D2 N2 ins2 al2 ha2 hs2, key Device NumericType inputs allocator hacs hok]
  · intro hT hx
    have hk := key Device NumericType inputs allocator hacs hok
    have := congrArg (List.map (fun q : String × TensorShape => q.2.num_elements)) hk
    have e : ∀ x ∈ [h, c, n, o], int_mul x TOTAL_FEATURE_SIZE = x * TOTAL_FEATURE_SIZE :=
      fun x hxm => ((int_mul_exact_or_wrapped x _ hT).1 (hx x hxm).1 (hx x hxm).2).1
    simpa [TensorShape.num_elements, List.map_map, Function.comp,
      e h (by simp), e c (by simp), e n (by simp), e o (by simp)] using this

/-- C1 at the scenario of the specification, `acs = [3,1,0,1]`, with
`TOTAL_FEATURE_SIZE = 384`: 3, 1, 0 and 1 rows of 384 entries. -/
theorem C1_Featurize_output_sizes_witness :
    (AniCombined.Compute 384 .CPUDevice .float
        (OpKernelContext.fresh (scenario_inputs [3, 1, 0, 1]) allocator_ok)).outputs.map
        (fun out => (out.1, out.2.shape.dims, out.2.shape.num_elements)) =
      [ ("h_feat", [3 * 384], 3 * 384), ("c_feat", [1 * 384], 1 * 384),
        ("n_feat", [0 * 384], 0 * 384), ("o_feat", [1 * 384], 1 * 384) ] :=
  (C1_Featurize_output_sizes 384 .CPUDevice .float (scenario_inputs [3, 1, 0, 1]) allocator_ok
    3 1 0 1 (by decide) (by decide)).1

/-- C2. A `FeaturizeGrad` call that ends with status OK has allocated exactly
the three outputs `x_grads`, `y_grads`, `z_grads`, in this order, each with a
single dimension and `total_num_atoms` entries, the number of elements of the
`xs` input (slot 0). The sizes are a function of that number only: two
successful calls whose `xs` have equally many elements get equal output shapes
whatever `acs`, the incoming gradient buffers and the other inputs are. -/
theorem C2_FeaturizeGrad_output_sizes (Device : EigenDevice) (NumericType : CppType)
    (inputs : List Tensor) (allocator : String → TensorShape → Except Status Nat)
    (hok : (AniCombinedGrad.Compute Device NumericType
      (OpKernelContext.fresh inputs allocator)).status = none) :
    (AniCombinedGrad.Compute Device NumericType
        (OpKernelContext.fresh inputs allocator)).outputs.map
        (fun out => (out.1, out.2.shape.dims, out.2.shape.num_elements)) =
      [ ("x_grads", [((OpKernelContext.fresh inputs allocator).input 0).shape.num_elements],
          ((OpKernelContext.fresh inputs allocator).input 0).shape.num_elements),
        ("y_grads", [((OpKernelContext.fresh inputs allocator).input 0).shape.num_elements],
          ((OpKernelContext.fresh inputs allocator).input 0).shape.num_elements),
        ("z_grads", [((OpKernelContext.fresh inputs allocator).input 0).shape.num_elements],
          ((OpKernelContext.fresh inputs allocator).input 0).shape.num_elements) ] ∧
    ∀ (Device2 : EigenDevice) (NumericType2 : CppType) (inputs2 : List Tensor)
      (allocator2 : String → TensorShape → Except Status Nat),
      ((OpKernelContext.fresh inputs2 allocator2).input 0).shape.num_elements =
        ((OpKernelContext.fresh inputs allocator).input 0).shape.num_elements →
      (AniCombinedGrad.Compute Device2 NumericType2
        (OpKernelContext.fresh inputs2 allocator2)).status = none →
      (AniCombinedGrad.Compute Device2 NumericType2
        (OpKernelContext.fresh inputs2 allocator2)).outputs.map (fun out => (out.1, out.2.shape)) =
      (AniCombinedGrad.Compute Device NumericType
        (OpKernelContext.fresh inputs allocator)).outputs.map (fun out => (out.1, out.2.shape)) := by
  have key : ∀ (D : EigenDevice) (N : CppType) (ins : List Tensor)
      (al : String → TensorShape → Except Status Nat),
      (AniCombinedGrad.Compute D N (OpKernelContext.fresh ins al)).status = none →
      (AniCombinedGrad.Compute D N (OpKernelContext.fresh ins al)).outputs.map
        (fun out => (out.1, out.2.shape)) =
      [ ("x_grads", ⟨[(ins.getD 0 default).shape.num_elements]⟩),
        ("y_grads", ⟨[(ins.getD 0 default).shape.num_elements]⟩),
        ("z_grads", ⟨[(ins.getD 0 default).shape.num_elements]⟩) ] := by
    intro D N ins al hs
    rcases AniCombinedGrad_Compute_cases D N ins al _ rfl with
      ⟨e, _, hr⟩ | ⟨pX, e, _, _, hr⟩ | ⟨pX, pY, e, _, _, _, hr⟩ | ⟨pX, pY, pZ, _, _, _, hr⟩
    all_goals rw [hr] at hs ⊢
    · exact absurd hs (Option.some_ne_none e)
    · exact absurd hs (Option.some_ne_none e)
    · exact absurd hs (Option.some_ne_none e)
    · rfl
  refine ⟨?_, ?_⟩
  · have hk := key Device NumericType inputs allocator hok
    have := congrArg (List.map (fun q : String × TensorShape => (q.1, q.2.dims, q.2.num_elements))) hk
    simpa [TensorShape.num_elements, List.map_map, Function.comp, OpKernelContext.input,
      OpKernelContext.fresh] using this
  · intro D2 N2 ins2 al2 hn hs2
    have hn2 : (ins2.getD 0 default).shape.num_elements =
        (inputs.getD 0 default).shape.num_elements := hn
    rw [key D2 N2 ins2 al2 hs2, key Device NumericType inputs allocator hok, hn2]

/-- C2 at the scenario of the specification (5 atoms): three buffers of 5
entries. -/
theorem C2_FeaturizeGrad_output_sizes_witness :
    (AniCombinedGrad.Compute .CPUDevice .double
        (OpKernelContext.fresh
          (scenario_inputs [3, 1, 0, 1] ++ scenario_grads [1152, 384, 0, 384])
          allocator_ok)).outputs.map
        (fun out => (out.1, out.2.shape.dims, out.2.shape.num_elements)) =
      [ ("x_grads", [5], 5), ("y_grads", [5], 5), ("z_grads", [5], 5) ] :=
  (C2_FeaturizeGrad_output_sizes .CPUDevice .double
    (scenario_inputs [3, 1, 0, 1] ++ scenario_grads [1152, 384, 0, 384]) allocator_ok
    (by decide)).1

/-- C3. For every element-count array `acs`, the four outputs `h_grads`,
`c_grads`, `n_grads`, `o_grads` of a successful `FeaturizeGradInverse` call
have, class by class (H, C, N, O order), the shapes of the four outputs
`h_feat`, `c_feat`, `n_feat`, `o_feat` of a successful `Featurize` call with
the same `acs`. -/
theorem C3_GradInverse_shapes_match_Featurize (TOTAL_FEATURE_SIZE : Int)
    (Device1 Device2 : EigenDevice) (NumericType1 NumericType2 : CppType)
    (inputs1 inputs2 : List Tensor)
    (allocator1 allocator2 : String → TensorShape → Except Status Nat)
    (hacs : ((OpKernelContext.fresh inputs2 allocator2).input 7).host =
      ((OpKernelContext.fresh inputs1 allocator1).input 7).host)
    (hok1 : (AniCombined.Compute TOTAL_FEATURE_SIZE Device1 NumericType1
      (OpKernelContext.fresh inputs1 allocator1)).status = none)
    (hok2 : (AniCombinedGradInverse.Compute TOTAL_FEATURE_SIZE Device2 NumericType2
      (OpKernelContext.fresh inputs2 allocator2)).status = none) :
    (AniCombined.Compute TOTAL_FEATURE_SIZE Device1 NumericType1
        (OpKernelContext.fresh inputs1 allocator1)).outputs.map Prod.fst =
      ["h_feat", "c_feat", "n_feat", "o_feat"] ∧
    (AniCombinedGradInverse.Compute TOTAL_FEATURE_SIZE Device2 NumericType2
        (OpKernelContext.fresh inputs2 allocator2)).outputs.map Prod.fst =
      ["h_grads", "c_grads", "n_grads", "o_grads"] ∧
    (AniCombinedGradInverse.Compute TOTAL_FEATURE_SIZE Device2 NumericType2
        (OpKernelContext.fresh inputs2 allocator2)).outputs.map (fun out => out.2.shape) =
      (AniCombined.Compute TOTAL_FEATURE_SIZE Device1 NumericType1
        (OpKernelContext.fresh inputs1 allocator1)).outputs.map (fun out => out.2.shape) := by
  have hat : ∀ k, (inputs2.getD 7 default).at k = (inputs1.getD 7 default).at k := by
    intro k
    have h : (inputs2.getD 7 default).host = (inputs1.getD 7 default).host := hacs
    unfold Tensor.at
    rw [h]
  rcases AniCombined_Compute_cases TOTAL_FEATURE_SIZE Device1 NumericType1 inputs1 allocator1
      _ _ _ _ rfl rfl rfl rfl with
    ⟨e, _, hr⟩ | ⟨pH, e, _, _, hr⟩ | ⟨pH, pC, e, _, _, _, hr⟩ | ⟨pH, pC, pN, e, _, _, _, _, hr⟩ |
    ⟨pH, pC, pN, pO, _, _, _, _, hr⟩
  all_goals rw [hr] at hok1 ⊢
  · exact absurd hok1 (Option.some_ne_none e)
  · exact absurd hok1 (Option.some_ne_none e)
  · exact absurd hok1 (Option.some_ne_none e)
  · exact absurd hok1 (Option.some_ne_none e)
  rcases AniCombinedGradInverse_Compute_cases TOTAL_FEATURE_SIZE Device2 NumericType2 inputs2
      allocator2 _ _ _ _ rfl rfl rfl rfl with
    ⟨e, _, hr2⟩ | ⟨qH, e, _, _, hr2⟩ | ⟨qH, qC, e, _, _, _, hr2⟩ |
    ⟨qH, qC, qN, e, _, _, _, _, hr2⟩ | ⟨qH, qC, qN, qO, _, _, _, _, hr2⟩
  all_goals rw [hr2] at hok2 ⊢
  · exact absurd hok2 (Option.some_ne_none e)
  · exact absurd hok2 (Option.some_ne_none e)
  · exact absurd hok2 (Option.some_ne_none e)
  · exact absurd hok2 (Option.some_ne_none e)
  · refine ⟨rfl, rfl, ?_⟩
    simp only [List.map, hat]

/-- C3 at `acs = [3,1,0,1]`, `TOTAL_FEATURE_SIZE = 384`: a float CPU
`Featurize` call and a double `FeaturizeGradInverse` call on other inputs. -/
theorem C3_GradInverse_shapes_match_Featurize_witness :
    (AniCombinedGradInverse.Compute 384 .CPUDevice .double
        (OpKernelContext.fresh (scenario_inputs [3, 1, 0, 1] ++ scenario_grads [5, 5, 5])
          allocator_ok)).outputs.map (fun out => out.2.shape) =
      (AniCombined.Compute 384 .CPUDevice .float
        (OpKernelContext.fresh (scenario_inputs [3, 1, 0, 1]) allocator_ok)).outputs.map
        (fun out => out.2.shape) :=
  (C3_GradInverse_shapes_match_Featurize 384 .CPUDevice .CPUDevice .float .double
    (scenario_inputs [3, 1, 0, 1]) (scenario_inputs [3, 1, 0, 1] ++ scenario_grads [5, 5, 5])
    allocator_ok allocator_ok (by decide) (by decide) (by decide)).2.2

/-! ## Inputs and their forwarding (C4) -/

/-- C4. The three operators declare the same first eight inputs in the same
order (xs, ys, zs, as, mos, macs, sis, acs), followed by no further input
(`Featurize`), by the four inputs h_grads, c_grads, n_grads, o_grads
(`FeaturizeGrad`) and by the three inputs x_grads, y_grads, z_grads
(`FeaturizeGradInverse`). Whenever a `Compute` calls its functor, the
arguments are, in call order: the device; the buffers of input slots 0 to 5;
`n_mols`, the number of elements of the mol-offsets input (slot 4); the buffer
of slot 6; the buffers of the extra input slots 8.. in slot order; the buffers
of the outputs in declaration order (H, C, N, O, resp. X, Y, Z); the buffer of
slot 7 (`acs`). -/
theorem C4_inputs_declared_and_forwarded (TOTAL_FEATURE_SIZE : Int) (Device : EigenDevice)
    (NumericType : CppType) (inputs : List Tensor)
    (allocator : String → TensorShape → Except Status Nat) (context : OpKernelContext)
    (hfresh : context = OpKernelContext.fresh inputs allocator) :
    ((REGISTER_OP_Featurize TOTAL_FEATURE_SIZE).inputs = common_inputs ∧
      (REGISTER_OP_FeaturizeGrad TOTAL_FEATURE_SIZE).inputs = common_inputs ++
        [⟨"h_grads", .attr "FT"⟩, ⟨"c_grads", .attr "FT"⟩, ⟨"n_grads", .attr "FT"⟩,
         ⟨"o_grads", .attr "FT"⟩] ∧
      (REGISTER_OP_FeaturizeGradInverse TOTAL_FEATURE_SIZE).inputs = common_inputs ++
        [⟨"x_grads", .attr "FT"⟩, ⟨"y_grads", .attr "FT"⟩, ⟨"z_grads", .attr "FT"⟩]) ∧
    (∀ name D N args,
      Event.functor name D N args ∈
        (AniCombined.Compute TOTAL_FEATURE_SIZE Device NumericType context).events →
      ∃ pH pC pN pO,
        (AniCombined.Compute TOTAL_FEATURE_SIZE Device NumericType context).outputs.map
          (fun out => (out.1, out.2.data)) =
          [("h_feat", pH), ("c_feat", pC), ("n_feat", pN), ("o_feat", pO)] ∧
        name = "AniFunctor" ∧ D = Device ∧ N = NumericType ∧
        args =
          [ .eigen_device Device,
            .ptr (context.input 0).data, .ptr (context.input 1).data,
            .ptr (context.input 2).data, .ptr (context.input 3).data,
            .ptr (context.input 4).data, .ptr (context.input 5).data,
            .value (context.input 4).shape.num_elements,
            .ptr (context.input 6).data,
            .ptr pH, .ptr pC, .ptr pN, .ptr pO,
            .ptr (context.input 7).data ]) ∧
    (∀ name D N args,
      Event.functor name D N args ∈
        (AniCombinedGrad.Compute Device NumericType context).events →
      ∃ pX pY pZ,
        (AniCombinedGrad.Compute Device NumericType context).outputs.map
          (fun out => (out.1, out.2.data)) =
          [("x_grads", pX), ("y_grads", pY), ("z_grads", pZ)] ∧
        name = "AniGrad" ∧ D = Device ∧ N = NumericType ∧
        args =
          [ .eigen_device Device,
            .ptr (context.input 0).data, .ptr (context.input 1).data,
            .ptr (context.input 2).data, .ptr (context.input 3).data,
            .ptr (context.input 4).data, .ptr (context.input 5).data,
            .value (context.input 4).shape.num_elements,
            .ptr (context.input 6).data,
            .ptr (context.input 8).data, .ptr (context.input 9).data,
            .ptr (context.input 10).data, .ptr (context.input 11).data,
            .ptr pX, .ptr pY, .ptr pZ,
            .ptr (context.input 7).data ]) ∧
    (∀ name D N args,
      Event.functor name D N args ∈
        (AniCombinedGradInverse.Compute TOTAL_FEATURE_SIZE Device NumericType context).events →
      ∃ pH pC pN pO,
        (AniCombinedGradInverse.Compute TOTAL_FEATURE_SIZE Device NumericType
          context).outputs.map (fun out => (out.1, out.2.data)) =
          [("h_grads", pH), ("c_grads", pC), ("n_grads", pN), ("o_grads", pO)] ∧
        name = "AniGradInverse" ∧ D = Device ∧ N = NumericType ∧
        args =
          [ .eigen_device Device,
            .ptr (context.input 0).data, .ptr (context.input 1).data,
            .ptr (context.input 2).data, .ptr (context.input 3).data,
            .ptr (context.input 4).data, .ptr (context.input 5).data,
            .value (context.input 4).shape.num_elements,
            .ptr (context.input 6).data,
            .ptr (context.input 8).data, .ptr (context.input 9).data,
            .ptr (context.input 10).data,
            .ptr pH, .ptr pC, .ptr pN, .ptr pO,
            .ptr (context.input 7).data ]) := by
  subst hfresh
  refine ⟨⟨rfl, rfl, rfl⟩, ?_, ?_, ?_⟩
  · intro name D N args hmem
    rcases AniCombined_Compute_cases TOTAL_FEATURE_SIZE Device NumericType inputs allocator
        _ _ _ _ rfl rfl rfl rfl with
      ⟨e, _, hr⟩ | ⟨pH, e, _, _, hr⟩ | ⟨pH, pC, e, _, _, _, hr⟩ |
      ⟨pH, pC, pN, e, _, _, _, _, hr⟩ | ⟨pH, pC, pN, pO, _, _, _, _, hr⟩
    all_goals rw [hr] at hmem ⊢
    all_goals simp only [List.mem_cons, List.mem_singleton, List.not_mem_nil, reduceCtorEq,
      false_or, or_false, Event.functor.injEq] at hmem
    obtain ⟨rfl, rfl, rfl, rfl⟩ := hmem
    exact ⟨pH, pC, pN, pO, rfl, rfl, rfl, rfl, rfl⟩
  · intro name D N args hmem
    rcases AniCombinedGrad_Compute_cases Device NumericType inputs allocator _ rfl with
      ⟨e, _, hr⟩ | ⟨pX, e, _, _, hr⟩ | ⟨pX, pY, e, _, _, _, hr⟩ | ⟨pX, pY, pZ, _, _, _, hr⟩
    all_goals rw [hr] at hmem ⊢
    all_goals simp only [List.mem_cons, List.mem_singleton, List.not_mem_nil, reduceCtorEq,
      false_or, or_false, Event.functor.injEq] at hmem
    obtain ⟨rfl, rfl, rfl, rfl⟩ := hmem
    exact ⟨pX, pY, pZ, rfl, rfl, rfl, rfl, rfl⟩
  · intro name D N args hmem
    rcases AniCombinedGradInverse_Compute_cases TOTAL_FEATURE_SIZE Device NumericType inputs
        allocator _ _ _ _ rfl rfl rfl rfl with
      ⟨e, _, hr⟩ | ⟨pH, e, _, _, hr⟩ | ⟨pH, pC, e, _, _, _, hr⟩ |
      ⟨pH, pC, pN, e, _, _, _, _, hr⟩ | ⟨pH, pC, pN, pO, _, _, _, _, hr⟩
    all_goals rw [hr] at hmem ⊢
    all_goals simp only [List.mem_cons, List.mem_singleton, List.not_mem_nil, reduceCtorEq,
      false_or, or_false, Event.functor.injEq] at hmem
    obtain ⟨rfl, rfl, rfl, rfl⟩ := hmem
    exact ⟨pH, pC, pN, pO, rfl, rfl, rfl, rfl, rfl⟩

/-- C4 at a successful double-precision `FeaturizeGrad` call of the scenario:
the functor is called, and its arguments are the buffers 100..105 of slots
0..5, `n_mols = 2`, the buffer 106 of slot 6, the buffers 108..111 of slots
8..11, the three output buffers, the buffer 107 of slot 7. -/
theorem C4_inputs_declared_and_forwarded_witness :
    Event.functor "AniGrad" .CPUDevice .double
        [ .eigen_device .CPUDevice, .ptr 100, .ptr 101, .ptr 102, .ptr 103, .ptr 104, .ptr 105,
          .value 2, .ptr 106, .ptr 108, .ptr 109, .ptr 110, .ptr 111,
          .ptr 204, .ptr 205, .ptr 206, .ptr 107 ] ∈
      (AniCombinedGrad.Compute .CPUDevice .double
        (OpKernelContext.fresh
          (scenario_inputs [3, 1, 0, 1] ++ scenario_grads [1152, 384, 0, 384])
          allocator_ok)).events ∧
    ∃ pX pY pZ,
      (AniCombinedGrad.Compute .CPUDevice .double
        (OpKernelContext.fresh
          (scenario_inputs [3, 1, 0, 1] ++ scenario_grads [1152, 384, 0, 384])
          allocator_ok)).outputs.map (fun out => (out.1, out.2.data)) =
        [("x_grads", pX), ("y_grads", pY), ("z_grads", pZ)] ∧
      "AniGrad" = "AniGrad" ∧ EigenDevice.CPUDevice = EigenDevice.CPUDevice ∧
      CppType.double = CppType.double ∧
      [ Arg.eigen_device .CPUDevice, .ptr 100, .ptr 101, .ptr 102, .ptr 103, .ptr 104, .ptr 105,
        .value 2, .ptr 106, .ptr 108, .ptr 109, .ptr 110, .ptr 111,
        .ptr 204, .ptr 205, .ptr 206, .ptr 107 ] =
      [ Arg.eigen_device .CPUDevice, .ptr 100, .ptr 101, .ptr 102, .ptr 103, .ptr 104, .ptr 105,
        .value 2, .ptr 106, .ptr 108, .ptr 109, .ptr 110, .ptr 111,
        .ptr pX, .ptr pY, .ptr pZ, .ptr 107 ] :=
  ⟨by decide,
   (C4_inputs_declared_and_forwarded 384 .CPUDevice .double
      (scenario_inputs [3, 1, 0, 1] ++ scenario_grads [1152, 384, 0, 384]) allocator_ok
      _ rfl).2.2.1 _ _ _ _ (by decide)⟩

/-! ## Numeric types, kernel registrations and host reads (C6, C7, C8) -/

/-- C6. Each of the three operators has exactly one type attribute, `FT`,
which admits exactly float32 and float64; every coordinate (xs, ys, zs),
feature (h_feat .. o_feat) and gradient tensor it declares has type `FT` (the
remaining tensors are the int32 index inputs as, mos, macs, sis, acs); and
for each of the two C++ types `float`, `double` a kernel of the operator is
registered for `DEVICE_CPU`, constrained on `FT` to that type and instantiated
with `CPUDevice` and that same `NumericType`. This holds with and without
`ANI_GPU`. -/
theorem C6_numeric_types (TOTAL_FEATURE_SIZE : Int) (ANI_GPU : Bool) (op : OpDef)
    (hop : op ∈ registered_ops TOTAL_FEATURE_SIZE) :
    op.attrs.filter AttrDef.is_type = [.type "FT" [.float32, .float64]] ∧
    (∀ a ∈ op.inputs ++ op.outputs,
      (a.name ∈ ["xs", "ys", "zs", "h_feat", "c_feat", "n_feat", "o_feat",
          "h_grads", "c_grads", "n_grads", "o_grads", "x_grads", "y_grads", "z_grads"] ∧
        a.type = .attr "FT") ∨
      (a.name ∈ ["as", "mos", "macs", "sis", "acs"] ∧ a.type = .fixed .int32)) ∧
    (∀ t : CppType, ∃ k ∈ REGISTER_KERNEL_BUILDER ANI_GPU,
      k.op = op.name ∧ k.device = .DEVICE_CPU ∧ k.constraint_attr = "FT" ∧
      k.constraint_type = DataTypeToEnum t ∧ k.kernel_Device = .CPUDevice ∧
      k.kernel_NumericType = t) := by
  have hk : ∀ (g : Bool) (name : String),
      name ∈ ["Featurize", "FeaturizeGrad", "FeaturizeGradInverse"] →
      ∀ t : CppType, ∃ k ∈ REGISTER_KERNEL_BUILDER g,
        k.op = name ∧ k.device = .DEVICE_CPU ∧ k.constraint_attr = "FT" ∧
        k.constraint_type = DataTypeToEnum t ∧ k.kernel_Device = .CPUDevice ∧
        k.kernel_NumericType = t := by
    intro g name hn t
    revert name
    cases g <;> cases t <;> decide
  simp only [registered_ops, List.mem_cons, List.mem_singleton, List.not_mem_nil, or_false] at hop
  rcases hop with rfl | rfl | rfl
  · refine ⟨rfl, ?_, hk ANI_GPU "Featurize" (by decide)⟩
    show ∀ a ∈ common_inputs ++ [⟨"h_feat", .attr "FT"⟩, ⟨"c_feat", .attr "FT"⟩,
      ⟨"n_feat", .attr "FT"⟩, ⟨"o_feat", .attr "FT"⟩], _
    decide
  · refine ⟨rfl, ?_, hk ANI_GPU "FeaturizeGrad" (by decide)⟩
    show ∀ a ∈ common_inputs ++ [⟨"h_grads", .attr "FT"⟩, ⟨"c_grads", .attr "FT"⟩,
      ⟨"n_grads", .attr "FT"⟩, ⟨"o_grads", .attr "FT"⟩] ++ [⟨"x_grads", .attr "FT"⟩,
      ⟨"y_grads", .attr "FT"⟩, ⟨"z_grads", .attr "FT"⟩], _
    decide
  · refine ⟨rfl, ?_, hk ANI_GPU "FeaturizeGradInverse" (by decide)⟩
    show ∀ a ∈ common_inputs ++ [⟨"x_grads", .attr "FT"⟩, ⟨"y_grads", .attr "FT"⟩,
      ⟨"z_grads", .attr "FT"⟩] ++ [⟨"h_grads", .attr "FT"⟩, ⟨"c_grads", .attr "FT"⟩,
      ⟨"n_grads", .attr "FT"⟩, ⟨"o_grads", .attr "FT"⟩], _
    decide

/-- C6 for `FeaturizeGrad` and `double` in a build without `ANI_GPU`. -/
theorem C6_numeric_types_witness :
    ∃ k ∈ REGISTER_KERNEL_BUILDER false,
      k.op = "FeaturizeGrad" ∧ k.device = .DEVICE_CPU ∧ k.constraint_attr = "FT" ∧
      k.constraint_type = .float64 ∧ k.kernel_Device = .CPUDevice ∧
      k.kernel_NumericType = .double :=
  (C6_numeric_types 384 false (REGISTER_OP_FeaturizeGrad 384) (by decide)).2.2 .double

/-- C7 fails as stated: even in a build with `ANI_GPU`, `FeaturizeGrad` with
float32 has a `DEVICE_CPU` kernel but no `DEVICE_GPU` kernel. -/
theorem C7_FeaturizeGrad_has_no_GPU_kernel :
    ¬ (kernel_registered true "FeaturizeGrad" .DEVICE_GPU .float ∧
       kernel_registered true "FeaturizeGrad" .DEVICE_CPU .float) ∧
    kernel_registered true "FeaturizeGrad" .DEVICE_CPU .float := by
  decide

/-- C7 as amended. For each of the three operators and each of the two numeric
types a kernel is registered for `DEVICE_CPU`; a kernel is registered for
`DEVICE_GPU` exactly for `Featurize` with float32 in a build that defines
`ANI_GPU`, and for no other operator, type or build. -/
theorem C7_kernels_per_device (ANI_GPU : Bool) (op : String) (t : CppType)
    (hop : op ∈ ["Featurize", "FeaturizeGrad", "FeaturizeGradInverse"]) :
    kernel_registered ANI_GPU op .DEVICE_CPU t ∧
    (kernel_registered ANI_GPU op .DEVICE_GPU t ↔
      (ANI_GPU = true ∧ op = "Featurize" ∧ t = .float)) := by
  revert op
  cases ANI_GPU <;> cases t <;> decide

/-- The amended C7 at `Featurize`, float32, `ANI_GPU` defined: both a host and
an accelerator kernel. -/
theorem C7_kernels_per_device_witness :
    kernel_registered true "Featurize" .DEVICE_CPU .float ∧
    (kernel_registered true "Featurize" .DEVICE_GPU .float ↔
      (true = true ∧ "Featurize" = "Featurize" ∧ CppType.float = .float)) :=
  C7_kernels_per_device true "Featurize" .float (by decide)

theorem AniCombined_Compute_reads_acs_only (T : Int) (D : EigenDevice) (N : CppType)
    (inputs1 inputs2 : List Tensor) (alloc : String → TensorShape → Except Status Nat)
    (hb : same_buffers inputs1 inputs2)
    (h7 : (inputs2.getD 7 default).host = (inputs1.getD 7 default).host) :
    (AniCombined.Compute T D N (OpKernelContext.fresh inputs2 alloc)).outcome =
      (AniCombined.Compute T D N (OpKernelContext.fresh inputs1 alloc)).outcome := by
  have hat : ∀ k, (inputs2.getD 7 default).at k = (inputs1.getD 7 default).at k := by
    intro k
    unfold Tensor.at
    rw [h7]
  have hd : ∀ i, (inputs2.getD i default).data = (inputs1.getD i default).data :=
    fun i => (hb i).2
  have hs : ∀ i, (inputs2.getD i default).shape = (inputs1.getD i default).shape :=
    fun i => (hb i).1
  rcases AniCombined_Compute_cases T D N inputs1 alloc _ _ _ _ rfl rfl rfl rfl with
    ⟨e, h0, hr⟩ | ⟨pH, e, h0, h1, hr⟩ | ⟨pH, pC, e, h0, h1, h2, hr⟩ |
    ⟨pH, pC, pN, e, h0, h1, h2, h3, hr⟩ | ⟨pH, pC, pN, pO, h0, h1, h2, h3, hr⟩ <;>
  rcases AniCombined_Compute_cases T D N inputs2 alloc
      ⟨[int_mul ((inputs1.getD 7 default).at 0) T]⟩ ⟨[int_mul ((inputs1.getD 7 default).at 1) T]⟩
      ⟨[int_mul ((inputs1.getD 7 default).at 2) T]⟩ ⟨[int_mul ((inputs1.getD 7 default).at 3) T]⟩
      (by rw [hat 0]) (by rw [hat 1]) (by rw [hat 2]) (by rw [hat 3]) with
    ⟨e2, g0, hr2⟩ | ⟨qH, e2, g0, g1, hr2⟩ | ⟨qH, qC, e2, g0, g1, g2, hr2⟩ |
    ⟨qH, qC, qN, e2, g0, g1, g2, g3, hr2⟩ | ⟨qH, qC, qN, qO, g0, g1, g2, g3, hr2⟩ <;>
  rw [hr, hr2] <;>
  simp_all [OpKernelContext.outcome]

theorem AniCombinedGradInverse_Compute_reads_acs_only (T : Int) (D : EigenDevice)
    (N : CppType) (inputs1 inputs2 : List Tensor)
    (alloc : String → TensorShape → Except Status Nat)
    (hb : same_buffers inputs1 inputs2)
    (h7 : (inputs2.getD 7 default).host = (inputs1.getD 7 default).host) :
    (AniCombinedGradInverse.Compute T D N (OpKernelContext.fresh inputs2 alloc)).outcome =
      (AniCombinedGradInverse.Compute T D N (OpKernelContext.fresh inputs1 alloc)).outcome := by
  have hat : ∀ k, (inputs2.getD 7 default).at k = (inputs1.getD 7 default).at k := by
    intro k
    unfold Tensor.at
    rw [h7]
  have hd : ∀ i, (inputs2.getD i default).data = (inputs1.getD i default).data :=
    fun i => (hb i).2
  have hs : ∀ i, (inputs2.getD i default).shape = (inputs1.getD i default).shape :=
    fun i => (hb i).1
  rcases AniCombinedGradInverse_Compute_cases T D N inputs1 alloc _ _ _ _ rfl rfl rfl rfl with
    ⟨e, h0, hr⟩ | ⟨pH, e, h0, h1, hr⟩ | ⟨pH, pC, e, h0, h1, h2, hr⟩ |
    ⟨pH, pC, pN, e, h0, h1, h2, h3, hr⟩ | ⟨pH, pC, pN, pO, h0, h1, h2, h3, hr⟩ <;>
  rcases AniCombinedGradInverse_Compute_cases T D N inputs2 alloc
      ⟨[int_mul ((inputs1.getD 7 default).at 0) T]⟩ ⟨[int_mul ((inputs1.getD 7 default).at 1) T]⟩
      ⟨[int_mul ((inputs1.getD 7 default).at 2) T]⟩ ⟨[int_mul ((inputs1.getD 7 default).at 3) T]⟩
      (by rw [hat 0]) (by rw [hat 1]) (by rw [hat 2]) (by rw [hat 3]) with
    ⟨e2, g0, hr2⟩ | ⟨qH, e2, g0, g1, hr2⟩ | ⟨qH, qC, e2, g0, g1, g2, hr2⟩ |
    ⟨qH, qC, qN, e2, g0, g1, g2, g3, hr2⟩ | ⟨qH, qC, qN, qO, g0, g1, g2, g3, hr2⟩ <;>
  rw [hr, hr2] <;>
  simp_all [OpKernelContext.outcome]

theorem AniCombinedGrad_Compute_reads_no_word (D : EigenDevice) (N : CppType)
    (inputs1 inputs2 : List Tensor) (alloc : String → TensorShape → Except Status Nat)
    (hb : same_buffers inputs1 inputs2) :
    (AniCombinedGrad.Compute D N (OpKernelContext.fresh inputs2 alloc)).outcome =
      (AniCombinedGrad.Compute D N (OpKernelContext.fresh inputs1 alloc)).outcome := by
  have hd : ∀ i, (inputs2.getD i default).data = (inputs1.getD i default).data :=
    fun i => (hb i).2
  have hs : ∀ i, (inputs2.getD i default).shape = (inputs1.getD i default).shape :=
    fun i => (hb i).1
  rcases AniCombinedGrad_Compute_cases D N inputs1 alloc _ rfl with
    ⟨e, h0, hr⟩ | ⟨pX, e, h0, h1, hr⟩ | ⟨pX, pY, e, h0, h1, h2, hr⟩ |
    ⟨pX, pY, pZ, h0, h1, h2, hr⟩ <;>
  rcases AniCombinedGrad_Compute_cases D N inputs2 alloc
      ⟨[(inputs1.getD 0 default).shape.num_elements]⟩ (by rw [hs 0]) with
    ⟨e2, g0, hr2⟩ | ⟨qX, e2, g0, g1, hr2⟩ | ⟨qX, qY, e2, g0, g1, g2, hr2⟩ |
    ⟨qX, qY, qZ, g0, g1, g2, hr2⟩ <;>
  rw [hr, hr2] <;>
  simp_all [OpKernelContext.outcome]

theorem AniCombined_Compute_sized_before_dispatch (T : Int) (D : EigenDevice) (N : CppType)
    (inputs : List Tensor) (alloc : String → TensorShape → Except Status Nat) :
    sized_before_dispatch alloc (AniCombined.requests T (OpKernelContext.fresh inputs alloc))
      "AniFunctor" D N (AniCombined.Compute T D N (OpKernelContext.fresh inputs alloc)).events := by
  rcases AniCombined_Compute_cases T D N inputs alloc _ _ _ _ rfl rfl rfl rfl with
    ⟨e, h0, hr⟩ | ⟨pH, e, h0, h1, hr⟩ | ⟨pH, pC, e, h0, h1, h2, hr⟩ |
    ⟨pH, pC, pN, e, h0, h1, h2, h3, hr⟩ | ⟨pH, pC, pN, pO, h0, h1, h2, h3, hr⟩
  · exact Or.inr ⟨0, _, _, e, rfl, h0, by rw [hr]; rfl⟩
  · exact Or.inr ⟨1, _, _, e, rfl, h1, by rw [hr]; rfl⟩
  · exact Or.inr ⟨2, _, _, e, rfl, h2, by rw [hr]; rfl⟩
  · exact Or.inr ⟨3, _, _, e, rfl, h3, by rw [hr]; rfl⟩
  · refine Or.inl ⟨?_, _, by rw [hr]; rfl⟩
    intro r hm
    simp only [AniCombined.requests, List.mem_cons, List.mem_singleton, List.not_mem_nil,
      or_false] at hm
    rcases hm with rfl | rfl | rfl | rfl
    · exact ⟨pH, h0⟩
    · exact ⟨pC, h1⟩
    · exact ⟨pN, h2⟩
    · exact ⟨pO, h3⟩

theorem AniCombinedGrad_Compute_sized_before_dispatch (D : EigenDevice) (N : CppType)
    (inputs : List Tensor) (alloc : String → TensorShape → Except Status Nat) :
    sized_before_dispatch alloc (AniCombinedGrad.requests (OpKernelContext.fresh inputs alloc))
      "AniGrad" D N (AniCombinedGrad.Compute D N (OpKernelContext.fresh inputs alloc)).events := by
  rcases AniCombinedGrad_Compute_cases D N inputs alloc _ rfl with
    ⟨e, h0, hr⟩ | ⟨pX, e, h0, h1, hr⟩ | ⟨pX, pY, e, h0, h1, h2, hr⟩ |
    ⟨pX, pY, pZ, h0, h1, h2, hr⟩
  · exact Or.inr ⟨0, _, _, e, rfl, h0, by rw [hr]; rfl⟩
  · exact Or.inr ⟨1, _, _, e, rfl, h1, by rw [hr]; rfl⟩
  · exact Or.inr ⟨2, _, _, e, rfl, h2, by rw [hr]; rfl⟩
  · refine Or.inl ⟨?_, _, by rw [hr]; rfl⟩
    intro r hm
    simp only [AniCombinedGrad.requests, List.mem_cons, List.mem_singleton, List.not_mem_nil,
      or_false] at hm
    rcases hm with rfl | rfl | rfl
    · exact ⟨pX, h0⟩
    · exact ⟨pY, h1⟩
    · exact ⟨pZ, h2⟩

theorem AniCombinedGradInverse_Compute_sized_before_dispatch (T : Int) (D : EigenDevice)
    (N : CppType) (inputs : List Tensor) (alloc : String → TensorShape → Except Status Nat) :
    sized_before_dispatch alloc
      (AniCombinedGradInverse.requests T (OpKernelContext.fresh inputs alloc))
      "AniGradInverse" D N
      (AniCombinedGradInverse.Compute T D N (OpKernelContext.fresh inputs alloc)).events := by
  rcases AniCombinedGradInverse_Compute_cases T D N inputs alloc _ _ _ _ rfl rfl rfl rfl with
    ⟨e, h0, hr⟩ | ⟨pH, e, h0, h1, hr⟩ | ⟨pH, pC, e, h0, h1, h2, hr⟩ |
    ⟨pH, pC, pN, e, h0, h1, h2, h3, hr⟩ | ⟨pH, pC, pN, pO, h0, h1, h2, h3, hr⟩
  · exact Or.inr ⟨0, _, _, e, rfl, h0, by rw [hr]; rfl⟩
  · exact Or.inr ⟨1, _, _, e, rfl, h1, by rw [hr]; rfl⟩
  · exact Or.inr ⟨2, _, _, e, rfl, h2, by rw [hr]; rfl⟩
  · exact Or.inr ⟨3, _, _, e, rfl, h3, by rw [hr]; rfl⟩
  · refine Or.inl ⟨?_, _, by rw [hr]; rfl⟩
    intro r hm
    simp only [AniCombinedGradInverse.requests, List.mem_cons, List.mem_singleton,
      List.not_mem_nil, or_false] at hm
    rcases hm with rfl | rfl | rfl | rfl
    · exact ⟨pH, h0⟩
    · exact ⟨pC, h1⟩
    · exact ⟨pN, h2⟩
    · exact ⟨pO, h3⟩

theorem acs_in_every_HostMemory (ANI_GPU : Bool) :
    ∀ k ∈ REGISTER_KERNEL_BUILDER ANI_GPU, "acs" ∈ k.host_memory := by
  revert ANI_GPU
  decide

theorem scenario_same_buffers (acs1 acs2 : List Int) (grads : List Tensor) :
    same_buffers (scenario_inputs acs1 ++ grads) (scenario_inputs acs2 ++ grads) := by
  intro i
  rcases i with _ | _ | _ | _ | _ | _ | _ | _ | i
  all_goals exact ⟨rfl, rfl⟩

/-- C8 fails as stated for `FeaturizeGrad`: its `Compute` does not read the
counts. At the scenario, on the CPU with `double`, the call makes three
requests of 5 entries (the number of atoms) and the functor call; and whatever
words the `acs` buffer holds, the events, outputs and status of the call are
the same, so no size is taken from the counts. -/
theorem C8_FeaturizeGrad_does_not_read_acs :
    (AniCombinedGrad.Compute .CPUDevice .double
      (OpKernelContext.fresh (scenario_inputs [3, 1, 0, 1] ++ scenario_grads [1152, 384, 0, 384])
        allocator_ok)).events =
      [ .allocate_output "x_grads" ⟨[5]⟩, .allocate_output "y_grads" ⟨[5]⟩,
        .allocate_output "z_grads" ⟨[5]⟩,
        .functor "AniGrad" .CPUDevice .double
          [ .eigen_device .CPUDevice, .ptr 100, .ptr 101, .ptr 102, .ptr 103, .ptr 104,
            .ptr 105, .value 2, .ptr 106, .ptr 108, .ptr 109, .ptr 110, .ptr 111,
            .ptr 204, .ptr 205, .ptr 206, .ptr 107 ] ] ∧
    ¬ ∃ acs : List Int,
      (AniCombinedGrad.Compute .CPUDevice .double
        (OpKernelContext.fresh (scenario_inputs acs ++ scenario_grads [1152, 384, 0, 384])
          allocator_ok)).outcome ≠
      (AniCombinedGrad.Compute .CPUDevice .double
        (OpKernelContext.fresh (scenario_inputs [3, 1, 0, 1] ++ scenario_grads [1152, 384, 0, 384])
          allocator_ok)).outcome := by
  refine ⟨by decide, ?_⟩
  rintro ⟨acs, h⟩
  exact h (AniCombinedGrad_Compute_reads_no_word _ _ _ _ _ (scenario_same_buffers _ _ _))

/-- C8 as amended. Every kernel registration, with or without `ANI_GPU`,
names `acs` in `HostMemory`, and `acs` is the name every operator declares for
input slot 7, so every registration places slot 7 in host memory. In the
`Compute` of `Featurize` and of `FeaturizeGradInverse` the counts are read on
the host from slot 7: the four requested sizes are computed from the words of
that buffer, every other input is used by shape and address only (the outcome
is the same for inputs with the same shapes, addresses and `acs` words), and
all four requests precede the functor call (`sized_before_dispatch`). The
`Compute` of `FeaturizeGrad` reads no word of any buffer, the counts included:
its three sizes come from the shape of slot 0, and all three requests precede
the functor call. -/
theorem C8_acs_on_host_sizes_before_dispatch (TOTAL_FEATURE_SIZE : Int) (ANI_GPU : Bool)
    (Device : EigenDevice) (NumericType : CppType) (inputs : List Tensor)
    (allocator : String → TensorShape → Except Status Nat) (context : OpKernelContext)
    (hfresh : context = OpKernelContext.fresh inputs allocator) :
    (∀ k ∈ REGISTER_KERNEL_BUILDER ANI_GPU, "acs" ∈ k.host_memory) ∧
    (∀ k ∈ REGISTER_KERNEL_BUILDER ANI_GPU, ∀ op ∈ registered_ops TOTAL_FEATURE_SIZE,
      k.op = op.name →
      op.inputs.get? 7 = some ⟨"acs", .fixed .int32⟩ ∧ k.input_in_host_memory op 7) ∧
    (sized_before_dispatch allocator (AniCombined.requests TOTAL_FEATURE_SIZE context)
        "AniFunctor" Device NumericType
        (AniCombined.Compute TOTAL_FEATURE_SIZE Device NumericType context).events ∧
      ∀ inputs2, same_buffers inputs inputs2 →
        ((OpKernelContext.fresh inputs2 allocator).input 7).host = (context.input 7).host →
        (AniCombined.Compute TOTAL_FEATURE_SIZE Device NumericType
          (OpKernelContext.fresh inputs2 allocator)).outcome =
        (AniCombined.Compute TOTAL_FEATURE_SIZE Device NumericType context).outcome) ∧
    (sized_before_dispatch allocator
        (AniCombinedGradInverse.requests TOTAL_FEATURE_SIZE context)
        "AniGradInverse" Device NumericType
        (AniCombinedGradInverse.Compute TOTAL_FEATURE_SIZE Device NumericType context).events ∧
      ∀ inputs2, same_buffers inputs inputs2 →
        ((OpKernelContext.fresh inputs2 allocator).input 7).host = (context.input 7).host →
        (AniCombinedGradInverse.Compute TOTAL_FEATURE_SIZE Device NumericType
          (OpKernelContext.fresh inputs2 allocator)).outcome =
        (AniCombinedGradInverse.Compute TOTAL_FEATURE_SIZE Device NumericType
          context).outcome) ∧
    (sized_before_dispatch allocator (AniCombinedGrad.requests context)
        "AniGrad" Device NumericType
        (AniCombinedGrad.Compute Device NumericType context).events ∧
      ∀ inputs2, same_buffers inputs inputs2 →
        (AniCombinedGrad.Compute Device NumericType
          (OpKernelContext.fresh inputs2 allocator)).outcome =
        (AniCombinedGrad.Compute Device NumericType context).outcome) := by
  subst hfresh
  refine ⟨acs_in_every_HostMemory ANI_GPU, ?_, ⟨?_, ?_⟩, ⟨?_, ?_⟩, ⟨?_, ?_⟩⟩
  · intro k hk op hop _
    have hacs := acs_in_every_HostMemory ANI_GPU k hk
    simp only [registered_ops, List.mem_cons, List.mem_singleton, List.not_mem_nil,
      or_false] at hop
    rcases hop with rfl | rfl | rfl
    · exact ⟨rfl, ⟨"acs", .fixed .int32⟩, rfl, hacs⟩
    · exact ⟨rfl, ⟨"acs", .fixed .int32⟩, rfl, hacs⟩
    · exact ⟨rfl, ⟨"acs", .fixed .int32⟩, rfl, hacs⟩
  · exact AniCombined_Compute_sized_before_dispatch _ _ _ _ _
  · intro inputs2 hb h7
    exact AniCombined_Compute_reads_acs_only _ _ _ _ _ _ hb h7
  · exact AniCombinedGradInverse_Compute_sized_before_dispatch _ _ _ _ _
  · intro inputs2 hb h7
    exact AniCombinedGradInverse_Compute_reads_acs_only _ _ _ _ _ _ hb h7
  · exact AniCombinedGrad_Compute_sized_before_dispatch _ _ _ _
  · intro inputs2 hb
    exact AniCombinedGrad_Compute_reads_no_word _ _ _ _ _ hb

/-- The amended C8 at a successful GPU `Featurize` call of the scenario: the
allocator grants everything, so the events are the four requests of 1152, 384,
0 and 384 entries, computed from `acs = [3,1,0,1]`, followed by the functor
call. -/
theorem C8_acs_on_host_sizes_before_dispatch_witness :
    ∃ args,
      (AniCombined.Compute 384 .GPUDevice .float
        (OpKernelContext.fresh (scenario_inputs [3, 1, 0, 1]) allocator_ok)).events =
        [ .allocate_output "h_feat" ⟨[1152]⟩, .allocate_output "c_feat" ⟨[384]⟩,
          .allocate_output "n_feat" ⟨[0]⟩, .allocate_output "o_feat" ⟨[384]⟩,
          .functor "AniFunctor" .GPUDevice .float args ] :=
  ((C8_acs_on_host_sizes_before_dispatch 384 true .GPUDevice .float
      (scenario_inputs [3, 1, 0, 1]) allocator_ok _ rfl).2.2.1.1.resolve_right
    (by
      rintro ⟨i, name, shape, e, _, h, _⟩
      exact Except.noConfusion h)).2

/-! ## Allocation failures (C9) -/

theorem AniCombined_Compute_fails_fast (T : Int) (D : EigenDevice) (N : CppType)
    (inputs : List Tensor) (alloc : String → TensorShape → Except Status Nat) :
    fails_fast alloc (AniCombined.requests T (OpKernelContext.fresh inputs alloc))
      (AniCombined.Compute T D N (OpKernelContext.fresh inputs alloc)) := by
  rcases AniCombined_Compute_cases T D N inputs alloc _ _ _ _ rfl rfl rfl rfl with
    ⟨e, h0, hr⟩ | ⟨pH, e, h0, h1, hr⟩ | ⟨pH, pC, e, h0, h1, h2, hr⟩ |
    ⟨pH, pC, pN, e, h0, h1, h2, h3, hr⟩ | ⟨pH, pC, pN, pO, h0, h1, h2, h3, hr⟩
  all_goals
    rw [hr]
    refine ⟨?_, ?_⟩
    · intro i name shape s hget hprev herr
      rcases i with _ | _ | _ | _ | _ | i <;>
        simp_all [AniCombined.requests, request_events, OpKernelContext.input,
          OpKernelContext.fresh, Event.is_functor]
    · simp_all [AniCombined.requests, request_events, OpKernelContext.input,
        OpKernelContext.fresh, Event.is_functor]

theorem AniCombinedGrad_Compute_fails_fast (D : EigenDevice) (N : CppType)
    (inputs : List Tensor) (alloc : String → TensorShape → Except Status Nat) :
    fails_fast alloc (AniCombinedGrad.requests (OpKernelContext.fresh inputs alloc))
      (AniCombinedGrad.Compute D N (OpKernelContext.fresh inputs alloc)) := by
  rcases AniCombinedGrad_Compute_cases D N inputs alloc _ rfl with
    ⟨e, h0, hr⟩ | ⟨pX, e, h0, h1, hr⟩ | ⟨pX, pY, e, h0, h1, h2, hr⟩ |
    ⟨pX, pY, pZ, h0, h1, h2, hr⟩
  all_goals
    rw [hr]
    refine ⟨?_, ?_⟩
    · intro i name shape s hget hprev herr
      rcases i with _ | _ | _ | _ | i <;>
        simp_all [AniCombinedGrad.requests, request_events, OpKernelContext.input,
          OpKernelContext.fresh, Event.is_functor]
    · simp_all [AniCombinedGrad.requests, request_events, OpKernelContext.input,
        OpKernelContext.fresh, Event.is_functor]

theorem AniCombinedGradInverse_Compute_fails_fast (T : Int) (D : EigenDevice) (N : CppType)
    (inputs : List Tensor) (alloc : String → TensorShape → Except Status Nat) :
    fails_fast alloc (AniCombinedGradInverse.requests T (OpKernelContext.fresh inputs alloc))
      (AniCombinedGradInverse.Compute T D N (OpKernelContext.fresh inputs alloc)) := by
  rcases AniCombinedGradInverse_Compute_cases T D N inputs alloc _ _ _ _ rfl rfl rfl rfl with
    ⟨e, h0, hr⟩ | ⟨pH, e, h0, h1, hr⟩ | ⟨pH, pC, e, h0, h1, h2, hr⟩ |
    ⟨pH, pC, pN, e, h0, h1, h2, h3, hr⟩ | ⟨pH, pC, pN, pO, h0, h1, h2, h3, hr⟩
  all_goals
    rw [hr]
    refine ⟨?_, ?_⟩
    · intro i name shape s hget hprev herr
      rcases i with _ | _ | _ | _ | _ | i <;>
        simp_all [AniCombinedGradInverse.requests, request_events, OpKernelContext.input,
          OpKernelContext.fresh, Event.is_functor]
    · simp_all [AniCombinedGradInverse.requests, request_events, OpKernelContext.input,
        OpKernelContext.fresh, Event.is_functor]

/-- C9. Each of the three `Compute` methods fails fast on its output
allocations (`fails_fast`): when request `i` is the first refused one, `Compute`
ends with the status of that refusal, has made the requests `0..i` and no later
one, holds the outputs `0..i-1` only, and has not called its functor; and the
functor is called if and only if every allocation is granted. -/
theorem C9_allocation_failure_stops_Compute (TOTAL_FEATURE_SIZE : Int) (Device : EigenDevice)
    (NumericType : CppType) (inputs : List Tensor)
    (allocator : String → TensorShape → Except Status Nat) (context : OpKernelContext)
    (hfresh : context = OpKernelContext.fresh inputs allocator) :
    fails_fast allocator (AniCombined.requests TOTAL_FEATURE_SIZE context)
      (AniCombined.Compute TOTAL_FEATURE_SIZE Device NumericType context) ∧
    fails_fast allocator (AniCombinedGrad.requests context)
      (AniCombinedGrad.Compute Device NumericType context) ∧
    fails_fast allocator (AniCombinedGradInverse.requests TOTAL_FEATURE_SIZE context)
      (AniCombinedGradInverse.Compute TOTAL_FEATURE_SIZE Device NumericType context) := by
  subst hfresh
  exact ⟨AniCombined_Compute_fails_fast _ _ _ _ _, AniCombinedGrad_Compute_fails_fast _ _ _ _,
    AniCombinedGradInverse_Compute_fails_fast _ _ _ _ _⟩

/-- C9 at a `FeaturizeGradInverse` call of the scenario whose third allocation
(`n_grads`) is refused: the call ends with that status after three requests,
with the two outputs `h_grads`, `c_grads` and without a functor call. -/
theorem C9_allocation_failure_stops_Compute_witness :
    (AniCombinedGradInverse.Compute 384 .CPUDevice .float
      (OpKernelContext.fresh (scenario_inputs [3, 1, 0, 1] ++ scenario_grads [5, 5, 5])
        (allocator_refusing "n_grads"))).status = some ⟨8, "OOM when allocating tensor"⟩ ∧
    (AniCombinedGradInverse.Compute 384 .CPUDevice .float
      (OpKernelContext.fresh (scenario_inputs [3, 1, 0, 1] ++ scenario_grads [5, 5, 5])
        (allocator_refusing "n_grads"))).events =
      request_events (AniCombinedGradInverse.requests 384
        (OpKernelContext.fresh (scenario_inputs [3, 1, 0, 1] ++ scenario_grads [5, 5, 5])
          (allocator_refusing "n_grads"))) (2 + 1) ∧
    (AniCombinedGradInverse.Compute 384 .CPUDevice .float
      (OpKernelContext.fresh (scenario_inputs [3, 1, 0, 1] ++ scenario_grads [5, 5, 5])
        (allocator_refusing "n_grads"))).outputs.map Prod.fst =
      ((AniCombinedGradInverse.requests 384
        (OpKernelContext.fresh (scenario_inputs [3, 1, 0, 1] ++ scenario_grads [5, 5, 5])
          (allocator_refusing "n_grads"))).take 2).map Prod.fst ∧
    ∀ e ∈ (AniCombinedGradInverse.Compute 384 .CPUDevice .float
      (OpKernelContext.fresh (scenario_inputs [3, 1, 0, 1] ++ scenario_grads [5, 5, 5])
        (allocator_refusing "n_grads"))).events, e.is_functor = false :=
  (C9_allocation_failure_stops_Compute 384 .CPUDevice .float
    (scenario_inputs [3, 1, 0, 1] ++ scenario_grads [5, 5, 5]) (allocator_refusing "n_grads")
    _ rfl).2.2.1 2 "n_grads" ⟨[0]⟩ ⟨8, "OOM when allocating tensor"⟩
    (by decide)
    (by
      intro r hr
      have hr2 : r = ("h_grads", ⟨[1152]⟩) ∨ r = ("c_grads", ⟨[384]⟩) := by
        simpa [AniCombinedGradInverse.requests] using hr
      rcases hr2 with rfl | rfl
      · exact ⟨207, rfl⟩
      · exact ⟨208, rfl⟩)
    rfl

/-! ## The `int` product of the output sizes (C10) -/

theorem AniCombined_Compute_requested_size (T : Int) (D : EigenDevice) (N : CppType)
    (inputs : List Tensor) (alloc : String → TensorShape → Except Status Nat)
    (k : Nat) (name : String) (r : Int)
    (h : (AniCombined.Compute T D N (OpKernelContext.fresh inputs alloc)).events.get? k =
      some (.allocate_output name ⟨[r]⟩)) :
    r = int_mul ((inputs.getD 7 default).at k) T := by
  rcases AniCombined_Compute_cases T D N inputs alloc _ _ _ _ rfl rfl rfl rfl with
    ⟨e, _, hr⟩ | ⟨pH, e, _, _, hr⟩ | ⟨pH, pC, e, _, _, _, hr⟩ |
    ⟨pH, pC, pN, e, _, _, _, _, hr⟩ | ⟨pH, pC, pN, pO, _, _, _, _, hr⟩
  all_goals
    rw [hr] at h
    rcases k with _ | _ | _ | _ | _ | k <;>
      simp only [List.get?, Option.some.injEq, Event.allocate_output.injEq,
        TensorShape.mk.injEq, List.cons.injEq, and_true, reduceCtorEq] at h
    all_goals exact h.2.symm

theorem AniCombinedGradInverse_Compute_requested_size (T : Int) (D : EigenDevice)
    (N : CppType) (inputs : List Tensor) (alloc : String → TensorShape → Except Status Nat)
    (k : Nat) (name : String) (r : Int)
    (h : (AniCombinedGradInverse.Compute T D N
      (OpKernelContext.fresh inputs alloc)).events.get? k =
      some (.allocate_output name ⟨[r]⟩)) :
    r = int_mul ((inputs.getD 7 default).at k) T := by
  rcases AniCombinedGradInverse_Compute_cases T D N inputs alloc _ _ _ _ rfl rfl rfl rfl with
    ⟨e, _, hr⟩ | ⟨pH, e, _, _, hr⟩ | ⟨pH, pC, e, _, _, _, hr⟩ |
    ⟨pH, pC, pN, e, _, _, _, _, hr⟩ | ⟨pH, pC, pN, pO, _, _, _, _, hr⟩
  all_goals
    rw [hr] at h
    rcases k with _ | _ | _ | _ | _ | k <;>
      simp only [List.get?, Option.some.injEq, Event.allocate_output.injEq,
        TensorShape.mk.injEq, List.cons.injEq, and_true, reduceCtorEq] at h
    all_goals exact h.2.symm

/-- C10. Let `r` be the size that `Featurize` or `FeaturizeGradInverse`
requests for element class `k` (event `k` of the call is the allocation request
of shape `{r}`), let `c = acs[k]`, and let `TOTAL_FEATURE_SIZE` be non-negative. If
`0 ≤ c` and `c * TOTAL_FEATURE_SIZE ≤ INT_MAX`, then `r` is the exact product
and is non-negative. If the exact product exceeds `INT_MAX`, then `r` is the
product reduced modulo 2^32 into the range of `int` (it lies in that range and
differs from the product by a multiple of 2^32), and `r` is not the exact
product. -/
theorem C10_output_size_int_arithmetic (TOTAL_FEATURE_SIZE : Int)
    (hT : 0 ≤ TOTAL_FEATURE_SIZE) (Device : EigenDevice) (NumericType : CppType)
    (inputs : List Tensor) (allocator : String → TensorShape → Except Status Nat)
    (context : OpKernelContext) (hfresh : context = OpKernelContext.fresh inputs allocator)
    (k : Nat) (name : String) (r : Int)
    (hreq :
      (AniCombined.Compute TOTAL_FEATURE_SIZE Device NumericType context).events.get? k =
        some (.allocate_output name ⟨[r]⟩) ∨
      (AniCombinedGradInverse.Compute TOTAL_FEATURE_SIZE Device NumericType
        context).events.get? k = some (.allocate_output name ⟨[r]⟩)) :
    (0 ≤ (context.input 7).at k → (context.input 7).at k * TOTAL_FEATURE_SIZE ≤ INT_MAX →
      r = (context.input 7).at k * TOTAL_FEATURE_SIZE ∧ 0 ≤ r) ∧
    (INT_MAX < (context.input 7).at k * TOTAL_FEATURE_SIZE →
      isInt r ∧ (r - (context.input 7).at k * TOTAL_FEATURE_SIZE) % 4294967296 = 0 ∧
      r ≠ (context.input 7).at k * TOTAL_FEATURE_SIZE) := by
  subst hfresh
  have hr : r = int_mul ((inputs.getD 7 default).at k) TOTAL_FEATURE_SIZE := by
    rcases hreq with h | h
    · exact AniCombined_Compute_requested_size _ _ _ _ _ _ _ _ h
    · exact AniCombinedGradInverse_Compute_requested_size _ _ _ _ _ _ _ _ h
  subst hr
  exact int_mul_exact_or_wrapped _ _ hT

/-- C10 with `TOTAL_FEATURE_SIZE = 384` and `acs = [11184811, 1, 0, 1]`: the
size requested for `h_feat` is 128, the product 4294967424 reduced modulo
2^32, and not the product; the size requested for `c_feat` is the exact
product 384. -/
theorem C10_output_size_int_arithmetic_witness :
    (isInt 128 ∧ ((128 : Int) - 11184811 * 384) % 4294967296 = 0 ∧
      (128 : Int) ≠ 11184811 * 384) ∧
    ((384 : Int) = 1 * 384 ∧ (0 : Int) ≤ 384) :=
  ⟨(C10_output_size_int_arithmetic 384 (by decide) .CPUDevice .float
      (scenario_inputs [11184811, 1, 0, 1]) allocator_ok _ rfl 0 "h_feat" 128
      (Or.inl (by decide))).2 (by decide),
   (C10_output_size_int_arithmetic 384 (by decide) .CPUDevice .float
      (scenario_inputs [11184811, 1, 0, 1]) allocator_ok _ rfl 1 "c_feat" 384
      (Or.inl (by decide))).1 (by decide) (by decide)⟩

end Khan
